import Mathlib

/-! # microservice-app: service registry, API gateway, email-service and user-service

A shallow embedding of the request handlers of `service-registry/app.js`,
`api-gateway/app.js` and `email-service/app.js` and of the bring-up loops of
`user-service/app.js`, and the properties of the Discovery Directory, the Gateway
Router, the Event Channel and the bring-up retries stated over them.

Conventions of the embedding:
* a handler is a pure function from its inputs (request, current state, the outcome
  of each external call it awaits) to its observable result (response, new state,
  trace of effects);
* `new Date().toISOString()` is a clock reading passed in as a string;
* `console.log` / `console.error` output is recorded only where a property speaks
  about logging;
* behaviour of the runtime and of the libraries the handlers are written against is
  spelled out where it decides a result: property lookup and assignment on a plain
  object, string conversion in template literals, assignment to a `const`, Express
  route and mount matching, the preflight answer of `cors()`, the bodiless answer to
  `HEAD`, the `pathRewrite` step of the proxy middleware (which works on
  `req.originalUrl`), the join of the rewritten path with the target's path in
  `http-proxy`, and the socket timeout of the proxy.
-/

namespace ServiceRegistry

/-! ## `service-registry/app.js` -/

/-- What a property read `services[name]` can evaluate to when every registered
`serviceUrl` is a JSON string or absent: `undefined`, a string, a method inherited
from `Object.prototype`, or `Object.prototype` itself (the inherited `__proto__`
accessor). -/
inductive JsValue where
  | undefined
  | str (s : String)
  | builtinFunction (name : String)
  | objectPrototype
  deriving DecidableEq, Repr

/-- JavaScript truthiness (`if (serviceUrl)`): `undefined` and the empty string are
falsy, functions and objects are truthy. -/
def JsValue.truthy : JsValue → Bool
  | .undefined => false
  | .str s => decide (s ≠ "")
  | .builtinFunction _ => true
  | .objectPrototype => true

/-- A JSON value as it appears in a response body of the registry. -/
inductive JsonField where
  | str (s : String)
  | strList (l : List String)
  | num (n : Nat)
  | emptyObject
  deriving DecidableEq, Repr

/-- An HTTP response produced through `res.status(..).json(..)`; `res.json` alone
answers with status 200. -/
structure Response where
  status : Nat
  body : List (String × JsonField)
  deriving DecidableEq, Repr

/-- How `JSON.stringify` renders a property value: properties whose value is
`undefined` or a function are left out, `Object.prototype` has no enumerable own
property and renders as `{}`. -/
def JsValue.toJson? : JsValue → Option JsonField
  | .undefined => none
  | .str s => some (.str s)
  | .builtinFunction _ => none
  | .objectPrototype => some .emptyObject

/-- The body `res.json` sends for an object literal with the given properties. -/
def jsonObject (props : List (String × JsValue)) : List (String × JsonField) :=
  props.filterMap fun p => (p.2.toJson?).map fun j => (p.1, j)

/-- The data properties every plain object inherits from `Object.prototype`
(`__proto__`, an accessor, is treated separately). -/
def objectPrototypeNames : List String :=
  ["constructor", "__defineGetter__", "__defineSetter__", "hasOwnProperty",
   "__lookupGetter__", "__lookupSetter__", "isPrototypeOf", "propertyIsEnumerable",
   "toString", "valueOf", "toLocaleString"]

/-- The object `const services = {}`: its own properties in creation order. Its
prototype is `Object.prototype` throughout, since only strings and `undefined` are
ever assigned (the `__proto__` setter ignores them). -/
structure ServicesObject where
  own : List (String × JsValue)
  deriving DecidableEq, Repr

/-- The initial registry, `{}`. -/
def ServicesObject.empty : ServicesObject := ⟨[]⟩

/-- Own-property lookup. -/
def ownLookup : List (String × JsValue) → String → Option JsValue
  | [], _ => none
  | (k, v) :: rest, name => if k = name then some v else ownLookup rest name

/-- Overwrite the value of an existing own property, or create it at the end. -/
def ownAssign : List (String × JsValue) → String → JsValue → List (String × JsValue)
  | [], name, v => [(name, v)]
  | (k, w) :: rest, name, v =>
    if k = name then (k, v) :: rest else (k, w) :: ownAssign rest name v

/-- The assignment `services[name] = value`. For `name = "__proto__"` it reaches the
setter inherited from `Object.prototype`, which does nothing for a value that is
neither an object nor `null`; every other name creates or overwrites an own
property. -/
def ServicesObject.set (o : ServicesObject) (name : String) (v : JsValue) : ServicesObject :=
  if name = "__proto__" then o else ⟨ownAssign o.own name v⟩

/-- The read `services[name]`: an own property first, then `Object.prototype`. -/
def ServicesObject.get (o : ServicesObject) (name : String) : JsValue :=
  match ownLookup o.own name with
  | some v => v
  | none =>
    if name = "__proto__" then .objectPrototype
    else if name ∈ objectPrototypeNames then .builtinFunction name
    else .undefined

/-- Value of a decimal digit character. -/
def digitValue (c : Char) : Nat := c.toNat - '0'.toNat

/-- A property key is an array index when it is the canonical decimal form of an
integer below `2^32 - 1`. -/
def arrayIndex? (s : String) : Option Nat :=
  match s.data with
  | [] => none
  | c :: cs =>
    if (c :: cs).all Char.isDigit && (c != '0' || cs.isEmpty) then
      let n := (c :: cs).foldl (fun acc d => 10 * acc + digitValue d) 0
      if n < 2 ^ 32 - 1 then some n else none
    else none

/-- The array `Object.keys(o)`: the array-index keys in ascending numeric order, then
the other keys in creation order. -/
def ServicesObject.keys (o : ServicesObject) : List String :=
  let names := o.own.map Prod.fst
  let indexed := names.filterMap fun k => (arrayIndex? k).map fun n => (n, k)
  let sorted := indexed.insertionSort fun a b => a.1 ≤ b.1
  sorted.map Prod.snd ++ names.filter fun k => (arrayIndex? k).isNone

/-- The JSON body of `POST /register` after `const { serviceName, serviceUrl } =
req.body`: each field is a string or absent (`undefined`). -/
structure RegisterBody where
  serviceName : Option String
  serviceUrl : Option String
  deriving DecidableEq, Repr

/-- The property key / template text of the destructured `serviceName`. -/
def RegisterBody.key (b : RegisterBody) : String := b.serviceName.getD "undefined"

/-- The value stored for the destructured `serviceUrl`. -/
def RegisterBody.value (b : RegisterBody) : JsValue :=
  match b.serviceUrl with
  | some u => .str u
  | none => .undefined

/-- The handler of `POST /register`: new registry and response. -/
def postRegister (services : ServicesObject) (b : RegisterBody) : ServicesObject × Response :=
  let services' := services.set b.key b.value
  (services',
   { status := 200
     body := [("status", .str "success"),
              ("message", .str (b.key ++ " registered successfully")),
              ("registeredServices", .strList services'.keys)] })

/-- The handler of `GET /services/:serviceName`. -/
def getService (services : ServicesObject) (serviceName : String) : Response :=
  let serviceUrl := services.get serviceName
  if serviceUrl.truthy then
    { status := 200
      body := jsonObject [("serviceName", .str serviceName), ("serviceUrl", serviceUrl)] }
  else
    { status := 404, body := [("error", .str "Service not found")] }

/-- The registry after a sequence of `POST /register` calls, starting from `services`. -/
def registerAll (services : ServicesObject) (calls : List RegisterBody) : ServicesObject :=
  calls.foldl (fun s b => (postRegister s b).1) services

/-- The most recent call of the sequence that registered `name`, if there is one. -/
def lastRegistered : List RegisterBody → String → Option RegisterBody
  | [], _ => none
  | b :: rest, name =>
    match lastRegistered rest name with
    | some later => some later
    | none => if b.key = name then some b else none

end ServiceRegistry

namespace ApiGateway

/-! ## `api-gateway/app.js` -/

/-- An inbound request: the HTTP method as Node reports it (upper case) and the
request target `req.originalUrl` in origin form (`/path?query`). -/
structure Request where
  method : String
  originalUrl : String
  deriving DecidableEq, Repr

/-- The body of a gateway response: a JSON object of string fields, the relayed
upstream body, or nothing. -/
inductive Body where
  | json (fields : List (String × String))
  | raw (content : String)
  | empty
  deriving DecidableEq, Repr

/-- A response as the client sees it. -/
structure Response where
  status : Nat
  body : Body
  deriving DecidableEq, Repr

/-- The `services` table of the gateway. -/
def services : List (String × String) :=
  [("user-service", "http://user-service:8080"),
   ("email-service", "http://email-service:8081"),
   ("service-registry", "http://service-registry:8761")]

/-- One entry `'^literal': replacement` of a `pathRewrite` table: the regular
expression is the literal anchored at the start of the path. -/
structure RewriteRule where
  literal : String
  replacement : String
  deriving DecidableEq, Repr

/-- The options `createServiceProxy(serviceName, pathRewrite)` hands to
`createProxyMiddleware`: the target looked up in `services` and the rewrite table. -/
structure ServiceProxy where
  serviceName : String
  target : Option String
  pathRewrite : List RewriteRule
  deriving DecidableEq, Repr

/-- The function `createServiceProxy`. -/
def createServiceProxy (serviceName : String) (pathRewrite : List RewriteRule) : ServiceProxy :=
  { serviceName := serviceName
    target := services.lookup serviceName
    pathRewrite := pathRewrite }

/-- The route definitions `app.use(prefix, createServiceProxy(..))`, in declaration
order. -/
def routes : List (String × ServiceProxy) :=
  [("/auth", createServiceProxy "user-service" [⟨"/auth", ""⟩]),
   ("/registry", createServiceProxy "service-registry" [⟨"/registry", ""⟩]),
   ("/emails", createServiceProxy "email-service" [⟨"/emails", ""⟩])]

/-- Code points of printable ASCII characters that URL parsing in Node escapes or gives
a meaning of their own: the quotes, `<`, `>`, `@`, the backslash, `^`, the backtick,
`{`, `|` and `}`. -/
def rewrittenCodes : List Nat := [34, 39, 60, 62, 64, 92, 94, 96, 123, 124, 125]

/-- A character that URL parsing leaves alone: printable ASCII above the space and
none of `rewrittenCodes`. -/
def plainChar (c : Char) : Bool :=
  decide (32 < c.toNat) && decide (c.toNat < 127) && !rewrittenCodes.contains c.toNat

/-- The request targets this embedding covers: origin form (a leading `/`) made of
plain characters. On these the pathname, the rewrite and the upstream path below are
what Express, the proxy middleware and `http-proxy` compute. -/
def originForm (target : String) : Bool :=
  target.data.head? == some '/' && target.data.all plainChar

/-- The pathname of a request target, on which Express matches routes: the part
before the query string and before the fragment. -/
def pathname (url : String) : String :=
  ⟨url.data.takeWhile fun c => c != '?' && c != '#'⟩

/-- Case-insensitive comparison of two character sequences (Express routes are not
case sensitive). -/
def sameIgnoringCase (a b : List Char) : Bool :=
  a.map Char.toLower == b.map Char.toLower

/-- Whether what follows a matched prefix lets the match stand: the end of the
pathname, or a `/`. -/
def atBoundary : List Char → Bool
  | [] => true
  | c :: _ => c == '/'

/-- Whether `app.use(pathPrefix, ..)` applies to a pathname: the pathname starts
with the prefix, whatever the letter case, and the prefix ends at the end of the
pathname or at a `/`. -/
def mountMatches (pathPrefix path : String) : Bool :=
  sameIgnoringCase (path.data.take pathPrefix.length) pathPrefix.data &&
    atBoundary (path.data.drop pathPrefix.length)

/-- Whether `app.get(routePath, ..)` applies to a pathname: the pathname is the route
path, whatever the letter case, with or without one trailing `/`. -/
def routeMatches (routePath path : String) : Bool :=
  if routePath.data.getLast? = some '/' then
    sameIgnoringCase path.data routePath.data ||
      sameIgnoringCase path.data routePath.data.dropLast
  else
    sameIgnoringCase path.data routePath.data ||
      sameIgnoringCase path.data (routePath.data ++ ['/'])

/-- A route registered with `app.get` serves `GET` and, there being no `HEAD` route,
`HEAD`. -/
def isGetOrHead (method : String) : Bool := method == "GET" || method == "HEAD"

/-- The `pathRewrite` step of the proxy: the first rule whose anchored literal starts
the path replaces that occurrence; with no such rule the path is unchanged. -/
def rewritePath : List RewriteRule → String → String
  | [], path => path
  | r :: rest, path =>
    if r.literal.data.isPrefixOf path.data then
      r.replacement ++ ⟨path.data.drop r.literal.length⟩
    else rewritePath rest path

/-- The path `http-proxy` reads from the rewritten `req.url` (`url.parse(req.url).path`):
pathname and query string, without the fragment. -/
def outgoingPath (url : String) : String := ⟨url.data.takeWhile fun c => c != '#'⟩

/-- The replacement `/\/+/g → '/'`: every run of `/` becomes one `/`. -/
def collapseSlashes : List Char → List Char
  | [] => []
  | c :: rest =>
    if c = '/' ∧ rest.head? = some '/' then collapseSlashes rest
    else c :: collapseSlashes rest

/-- Whether the text `pat` occurs in `text`. -/
def occurs (pat : List Char) : List Char → Bool
  | [] => pat.isEmpty
  | c :: rest => pat.isPrefixOf (c :: rest) || occurs pat rest

/-- The call `text.replace(pat, rep)` with a string pattern: the first occurrence of
`pat` is replaced. -/
def replaceFirst (pat rep : List Char) : List Char → List Char
  | [] => if pat.isEmpty then rep else []
  | c :: rest =>
    if pat.isPrefixOf (c :: rest) then rep ++ (c :: rest).drop pat.length
    else c :: replaceFirst pat rep rest

/-- The function `urlJoin` of `http-proxy` on the target's path and the outgoing path:
the part before the first `?` is joined to the target's path with a `/` (an empty part
is left out), runs of `/` are collapsed, `http:/` and `https:/` get their second slash
back, and the query string is appended untouched. -/
def urlJoinChars (targetPath outgoing : List Char) : List Char :=
  let pathPart := outgoing.takeWhile fun c => c != '?'
  let query := outgoing.dropWhile fun c => c != '?'
  let joined :=
    if targetPath.isEmpty then pathPart
    else if pathPart.isEmpty then targetPath
    else targetPath ++ '/' :: pathPart
  replaceFirst "https:/".data "https://".data
    (replaceFirst "http:/".data "http://".data (collapseSlashes joined)) ++ query

/-- The function `urlJoin` on strings. -/
def urlJoin (targetPath outgoing : String) : String :=
  ⟨urlJoinChars targetPath.data outgoing.data⟩

/-- What follows `scheme://authority` in a target URL. -/
def afterAuthority : List Char → List Char
  | [] => []
  | c :: rest =>
    if c = ':' ∧ rest.take 2 = ['/', '/'] then (rest.drop 2).dropWhile fun d => d != '/'
    else afterAuthority rest

/-- The path of a parsed target URL: `/` when the URL names none. -/
def targetPath (target : String) : String :=
  match afterAuthority target.data with
  | [] => "/"
  | p => ⟨p⟩

/-- What the gateway decides for a request before any upstream call: answer at once,
forward to a service's target with the given upstream path, or nothing this embedding
covers (a request target outside `originForm`, a proxy without target). -/
inductive Dispatch where
  | respond (r : Response)
  | forward (serviceName target path : String)
  | uncovered
  deriving DecidableEq, Repr

/-- The first route definition whose prefix matches the pathname. -/
def findRoute : List (String × ServiceProxy) → String → Option ServiceProxy
  | [], _ => none
  | (pathPrefix, proxy) :: rest, path =>
    if mountMatches pathPrefix path then some proxy else findRoute rest path

/-- What `res.json` puts on the wire: a response to a `HEAD` request keeps its status
and carries no body. -/
def send (method : String) (r : Response) : Response :=
  if method == "HEAD" then { r with body := .empty } else r

/-- The upstream call of a service proxy: the middleware restores `req.originalUrl`
and applies `pathRewrite`; `http-proxy` joins the result to the path of the target. -/
def proxyRequest (proxy : ServiceProxy) (originalUrl : String) : Dispatch :=
  match proxy.target with
  | none => .uncovered
  | some target =>
    .forward proxy.serviceName target
      (urlJoin (targetPath target) (outgoingPath (rewritePath proxy.pathRewrite originalUrl)))

/-- The middleware stack of the gateway in registration order: `cors()` (which ends
an `OPTIONS` request with 204), the request logger, `GET /`, `GET /health`, the three
proxies, `GET /gateway-test`, and the 404 handler. -/
def dispatch (now : String) (req : Request) : Dispatch :=
  let path := pathname req.originalUrl
  if req.method == "OPTIONS" then
    .respond ⟨204, .empty⟩
  else if !originForm req.originalUrl then
    .uncovered
  else if isGetOrHead req.method && routeMatches "/" path then
    .respond (send req.method
      ⟨200, .json [("message", "API Gateway - Enhanced Version"), ("timestamp", now)]⟩)
  else if isGetOrHead req.method && routeMatches "/health" path then
    .respond (send req.method ⟨200, .json [("status", "healthy"), ("service", "api-gateway")]⟩)
  else
    match findRoute routes path with
    | some proxy => proxyRequest proxy req.originalUrl
    | none =>
      if isGetOrHead req.method && routeMatches "/gateway-test" path then
        .respond (send req.method ⟨200, .json [("message", "Gateway is working"),
          ("test", "This proves the gateway can respond to requests"),
          ("timestamp", now)]⟩)
      else
        .respond (send req.method ⟨404, .json [("error", "Route not found"),
          ("path", req.originalUrl), ("timestamp", now)]⟩)

/-- How an upstream call ends: a response to relay; a transport failure reported while
the client connection is open, carrying the error's code and message; or nothing at
all within the 10000 ms of `timeout` and `proxyTimeout`. -/
inductive UpstreamResult where
  | response (status : Nat) (body : String)
  | failure (code message : String)
  | timeout
  deriving DecidableEq, Repr

/-- What the client gets: a response, or its connection closed without one. -/
inductive ClientOutcome where
  | response (r : Response)
  | connectionClosed
  deriving DecidableEq, Repr

/-- What a request leaves behind: what the client gets and the lines written with
`console.error`. -/
structure Handled where
  outcome : ClientOutcome
  errorLog : List String
  deriving DecidableEq, Repr

/-- The `onError` callback of `createServiceProxy`, for a request of the given
method. -/
def onError (serviceName : String) (errMessage : String) (now : String) (method : String) :
    Handled :=
  { errorLog := ["❌ GATEWAY ERROR for " ++ serviceName ++ ": " ++ errMessage]
    outcome := .response (send method ⟨502, .json [("error", serviceName ++ " unavailable"),
      ("message", "Service is not responding"), ("timestamp", now)]⟩) }

/-- The gateway serving one request, given how the upstream call it issues (target,
path) ends; `none` when the request is not covered. A failure goes to `onError`. When
the upstream stays silent, the `timeout` option destroys the client socket after
10000 ms; the upstream request is then aborted with the client gone, which `http-proxy`
reports as `econnreset` and not to `onError`. -/
def handle (now : String) (upstream : String → String → UpstreamResult) (req : Request) :
    Option Handled :=
  match dispatch now req with
  | .uncovered => none
  | .respond r => some ⟨.response r, []⟩
  | .forward serviceName target path =>
    match upstream target path with
    | .response status body => some ⟨.response ⟨status, .raw body⟩, []⟩
    | .failure _ message => some (onError serviceName message now req.method)
    | .timeout => some ⟨.connectionClosed, []⟩

end ApiGateway

namespace EmailService

/-! ## `email-service/app.js` -/

/-- A value produced by `JSON.parse`. Numbers carry their literal text; nothing here
computes with them. -/
inductive Json where
  | null
  | bool (b : Bool)
  | num (literal : String)
  | str (s : String)
  | arr (items : List Json)
  | obj (props : List (String × Json))

/-- A JavaScript value read from a parsed event: `none` is `undefined`. -/
abbrev JsVal := Option Json

/-- Own-property lookup in a parsed object. -/
def lookupProp : List (String × Json) → String → JsVal
  | [], _ => none
  | (k, v) :: rest, name => if k = name then some v else lookupProp rest name

/-- The property read `v.name` on a non-null parsed value, for the names this file
reads (`type`, `data`, `userId`, `name`, `email`, `service`): an own property of an object,
`undefined` on anything else (none of these names is inherited from a prototype). -/
def prop (v : Json) (name : String) : JsVal :=
  match v with
  | .obj props => lookupProp props name
  | _ => none

/-- The errors the modelled code can raise. -/
inductive JsError where
  | syntaxError (message : String)
  | typeError (message : String)
  deriving DecidableEq, Repr

/-- The property `message` of an error. -/
def JsError.message : JsError → String
  | .syntaxError m => m
  | .typeError m => m

/-- Whether a parsed object has an own property of the given name. -/
def hasProp : List (String × Json) → String → Bool
  | [], _ => false
  | (k, _) :: rest, name => k == name || hasProp rest name

/-- One step of `Array.prototype.join`: the element's text, then a comma and the text
of the remaining elements when there are any. -/
def joinWith (rest : List Json) (s t : String) : String :=
  match rest with
  | [] => s
  | _ :: _ => s ++ "," ++ t

mutual
/-- String conversion of a parsed value, as a template literal performs it. A number
is rendered by the runtime (`numToStr`, from its literal). An array is joined with
commas. A plain object renders as `[object Object]` through the inherited `toString`;
an own property `toString`, which in parsed JSON is never a function, hides it, and
the conversion raises a `TypeError`. -/
def jsonToString (numToStr : String → String) : Json → Except JsError String
  | .null => .ok "null"
  | .bool b => .ok (if b then "true" else "false")
  | .num literal => .ok (numToStr literal)
  | .str s => .ok s
  | .arr items => joinItems numToStr items
  | .obj props =>
    if hasProp props "toString" then
      .error (.typeError "Cannot convert object to primitive value")
    else .ok "[object Object]"
termination_by structural v => v
/-- The text of `items.join(",")`: a `null` element contributes the empty string. -/
def joinItems (numToStr : String → String) : List Json → Except JsError String
  | [] => .ok ""
  | .null :: rest => (joinItems numToStr rest).map (joinWith rest "")
  | x :: rest =>
    match jsonToString numToStr x with
    | .error e => .error e
    | .ok s => (joinItems numToStr rest).map (joinWith rest s)
termination_by structural l => l
end

/-- The fields handed to `EmailLog.create` by `sendWelcomeEmail` (`to_` is the column
`to`). -/
structure EmailLogFields where
  to_ : JsVal
  subject : String
  message : String
  status : String
  userId : JsVal

/-- A delivered broker message. -/
structure Message where
  deliveryTag : Nat
  content : String
  deriving DecidableEq, Repr

/-- Everything the consumer awaits or calls outside the file: the clock, the
runtime's rendering of numbers, `JSON.parse` (which throws on malformed text) and
`EmailLog.create` (which resolves with the new row's id or rejects). -/
structure Env where
  now : String
  numToStr : String → String
  jsonParse : String → Except String Json
  create : EmailLogFields → Except String Nat

/-- String conversion of a value inside a template literal; `undefined` gives the text
`undefined`. -/
def toStr (env : Env) : JsVal → Except JsError String
  | none => .ok "undefined"
  | some v => jsonToString env.numToStr v

/-- An observable effect of the consumer. -/
inductive Effect where
  | log (line : String)
  | logError (line : String)
  | create (fields : EmailLogFields)
  | ack (message : Message)

/-- Whether an effect is a `channel.ack` call. -/
def Effect.isAck : Effect → Bool
  | .ack _ => true
  | _ => false

/-- Whether an effect is a call of `EmailLog.create`. -/
def Effect.isCreate : Effect → Bool
  | .create _ => true
  | _ => false

/-- An asynchronous function run to its end: the effects in order and whether the
promise resolved (`none`) or rejected with an error. -/
structure Run where
  trace : List Effect
  raised : Option JsError

/-- The object literal `sendWelcomeEmail` passes to `EmailLog.create`, from the
destructured `userId`, `name` (already converted for the message) and `email` of its
argument. -/
def welcomeFields (nameText : String) (d : Json) : EmailLogFields :=
  { to_ := prop d "email"
    subject := "Welcome to Our App!"
    message := "Hello " ++ nameText ++
      ", welcome to our microservice app with RabbitMQ and PostgreSQL!"
    status := "sent"
    userId := prop d "userId" }

/-- The line `console.error` writes in the `catch` block of `sendWelcomeEmail`. -/
def failedToLog (env : Env) (message : String) : Effect :=
  .logError ("[" ++ env.now ++ "] ❌ EMAIL_SERVICE: Failed to log email to database: " ++ message)

/-- The function `sendWelcomeEmail`. Destructuring `undefined` or `null` raises a
`TypeError`, and so does the first log line when `email` has no string conversion;
inside the `try` block, a failing conversion of `name` and a rejected
`EmailLog.create` are caught and logged. -/
def sendWelcomeEmail (env : Env) (userData : JsVal) : Run :=
  match userData with
  | none =>
    ⟨[], some (.typeError
      "Cannot destructure property 'userId' of 'userData' as it is undefined.")⟩
  | some .null =>
    ⟨[], some (.typeError "Cannot destructure property 'userId' of 'userData' as it is null.")⟩
  | some d =>
    match toStr env (prop d "email") with
    | .error err => ⟨[], some err⟩
    | .ok emailText =>
      let sending := Effect.log
        ("[" ++ env.now ++ "] 📧 EMAIL_SERVICE: Sending welcome email to " ++ emailText)
      match toStr env (prop d "name") with
      | .error err => ⟨[sending, failedToLog env err.message], none⟩
      | .ok nameText =>
        match env.create (welcomeFields nameText d) with
        | .ok id =>
          ⟨[sending, .create (welcomeFields nameText d),
            .log ("[" ++ env.now ++
              "] 💾 EMAIL_SERVICE: Email logged to PostgreSQL with ID: " ++ toString id),
            .log ("[" ++ env.now ++ "] ✅ EMAIL_SERVICE: Welcome email sent to " ++ nameText ++
              " (" ++ emailText ++ ")")], none⟩
        | .error message =>
          ⟨[sending, .create (welcomeFields nameText d), failedToLog env message], none⟩

/-- The test `event.type === 'user_created'`. -/
def isUserCreated (event : Json) : Bool :=
  match prop event "type" with
  | some (.str s) => s == "user_created"
  | _ => false

/-- The line the consumer logs for a received event. -/
def received (env : Env) (typeText : String) : Effect :=
  .log ("[" ++ env.now ++ "] 📨 EMAIL_SERVICE: Received event: " ++ typeText)

/-- What the consumer callback does once the event is decoded and its type logged:
the welcome handler for a `user_created` event, then `channel.ack`. -/
def processEvent (env : Env) (m : Message) (event : Json) (typeText : String) : Run :=
  if isUserCreated event then
    let handler := sendWelcomeEmail env (prop event "data")
    match handler.raised with
    | some err => ⟨received env typeText :: handler.trace, some err⟩
    | none => ⟨received env typeText :: handler.trace ++ [.ack m], none⟩
  else
    ⟨[received env typeText, .ack m], none⟩

/-- The callback passed to `channel.consume`. `JSON.parse` may throw; reading `type`
of `null` raises a `TypeError`, and so does the log line when `event.type` has no
string conversion. -/
def onMessage (env : Env) (message : Option Message) : Run :=
  match message with
  | none => ⟨[], none⟩
  | some m =>
    match env.jsonParse m.content with
    | .error e => ⟨[], some (.syntaxError e)⟩
    | .ok .null =>
      ⟨[], some (.typeError "Cannot read properties of null (reading 'type')")⟩
    | .ok event =>
      match toStr env (prop event "type") with
      | .error err => ⟨[], some err⟩
      | .ok typeText => processEvent env m event typeText

/-- How a variable was declared. -/
inductive Declaration where
  | const
  | let_
  deriving DecidableEq, Repr

/-- A variable binding: its declaration kind and current value. -/
structure Binding (α : Type) where
  declared : Declaration
  value : α
  deriving DecidableEq, Repr

/-- The assignment `x = v`: a `TypeError` when `x` was declared with `const`. -/
def Binding.assign {α : Type} (b : Binding α) (v : α) : Except JsError (Binding α) :=
  match b.declared with
  | .const => .error (.typeError "Assignment to constant variable.")
  | .let_ => .ok { b with value := v }

/-- A channel handle returned by `connection.createChannel()`. -/
structure Channel where
  id : Nat
  deriving DecidableEq, Repr

/-- The binding `const channel = await connection.createChannel()` of
`setupRabbitMQ`; the value is `none` once it is `null`. -/
def channelBinding (ch : Channel) : Binding (Option Channel) := ⟨.const, some ch⟩

/-- A connection event listener run to its end: what was written with
`console.error`, the `channel` binding afterwards, and the error it raised, if any. -/
structure ListenerRun where
  errorLog : List String
  channel : Binding (Option Channel)
  raised : Option JsError
  deriving DecidableEq, Repr

/-- The statement `channel = null` of both listeners, after their log line. -/
def clearChannel (logged : String) (channel : Binding (Option Channel)) : ListenerRun :=
  match channel.assign none with
  | .ok channel' => ⟨[logged], channel', none⟩
  | .error err => ⟨[logged], channel, some err⟩

/-- The listener `connection.on('error', (err) => ..)`. -/
def onConnectionError (now : String) (channel : Binding (Option Channel))
    (errMessage : String) : ListenerRun :=
  clearChannel ("[" ++ now ++ "] ❌ RabbitMQ connection error: " ++ errMessage) channel

/-- The listener `connection.on('close', () => ..)`. -/
def onConnectionClose (now : String) (channel : Binding (Option Channel)) : ListenerRun :=
  clearChannel ("[" ++ now ++ "] ❌ RabbitMQ connection closed") channel

/-- The outcome of each broker call `setupRabbitMQ` awaits, in order: `amqp.connect`,
`createChannel`, `assertExchange`, `assertQueue`, `bindQueue`. An error carries its
message. -/
structure Broker where
  connect : Except String Unit
  createChannel : Except String Channel
  assertExchange : Except String Unit
  assertQueue : Except String Unit
  bindQueue : Except String Unit

/-- The function `setupRabbitMQ` run to its end: its `console.error` lines, the value
it returns (`none` for `null`) and the error it raised, if any. -/
structure SetupRun where
  errorLog : List String
  returned : Option Channel
  raised : Option JsError
  deriving DecidableEq, Repr

/-- The `try` block of `setupRabbitMQ` up to `return channel`: the first failing call
ends it. -/
def setupSteps (broker : Broker) : Except String Channel := do
  broker.connect
  let channel ← broker.createChannel
  broker.assertExchange
  broker.assertQueue
  broker.bindQueue
  pure channel

/-- The function `setupRabbitMQ`: the channel on success; on any failure the `catch`
block logs the error and returns `null`. -/
def setupRabbitMQ (now : String) (broker : Broker) : SetupRun :=
  match setupSteps broker with
  | .ok channel => ⟨[], some channel, none⟩
  | .error message =>
    ⟨["[" ++ now ++ "] ❌ Failed to connect to RabbitMQ: " ++ message], none, none⟩

/-- The `checks` object of the health response; `memory` and `uptime` are the
rendered values of `process.memoryUsage()` and `process.uptime()`. -/
structure Checks where
  database : String
  memory : String
  uptime : String
  rabbitmq : String
  serviceRegistry : String
  deriving DecidableEq, Repr

/-- The object `healthCheck` sent by `GET /health`. -/
structure HealthCheck where
  status : String
  timestamp : String
  service : String
  checks : Checks
  deriving DecidableEq, Repr

/-- What `GET /health` reads and awaits: the clock, the process figures, and the
outcomes of `sequelize.authenticate()` and of `axios.get` on the registry. -/
structure HealthInputs where
  now : String
  memory : String
  uptime : String
  authenticate : Except String Unit
  registryHealth : Except String Unit

/-- Whether a dependency check of the health handler resolved. -/
def succeededCheck (outcome : Except String Unit) : Bool :=
  match outcome with
  | .ok _ => true
  | .error _ => false

/-- The handler of `GET /health`, statement by statement. The RabbitMQ `try` block
holds a single assignment, which cannot throw, so its `catch` is never entered. -/
def getHealth (i : HealthInputs) : HealthCheck :=
  let h0 : HealthCheck :=
    { status := "healthy", timestamp := i.now, service := "email-service"
      checks := { database := "unknown", memory := i.memory, uptime := i.uptime
                  rabbitmq := "unknown", serviceRegistry := "unknown" } }
  let h1 : HealthCheck :=
    match i.authenticate with
    | .ok _ => { h0 with checks := { h0.checks with database := "connected" } }
    | .error _ =>
      { h0 with checks := { h0.checks with database := "disconnected" }, status := "unhealthy" }
  let h2 : HealthCheck := { h1 with checks := { h1.checks with rabbitmq := "connected" } }
  match i.registryHealth with
  | .ok _ => { h2 with checks := { h2.checks with serviceRegistry := "reachable" } }
  | .error _ =>
    { h2 with checks := { h2.checks with serviceRegistry := "unreachable" }, status := "degraded" }

/-- JavaScript truthiness of a parsed value: `null`, `false`, the empty string and the
numbers the runtime reads as zero or `NaN` (`numTruthy`, from the literal) are falsy. -/
def Json.truthy (numTruthy : String → Bool) : Json → Bool
  | .null => false
  | .bool b => b
  | .num literal => numTruthy literal
  | .str s => decide (s ≠ "")
  | .arr _ => true
  | .obj _ => true

/-- The function `verifyToken`: the payload `jwt.verify` returns, or the error
`Invalid token` whatever `jwt.verify` threw. -/
def verifyToken (jwtVerify : String → Except String Json) (token : String) :
    Except String Json :=
  match jwtVerify token with
  | .ok decoded => .ok decoded
  | .error _ => .error "Invalid token"

/-- How a middleware ends: it calls `next()` after setting `req.service`, or it sends
a JSON response and does not call `next`. -/
inductive AuthOutcome where
  | next (service : Json)
  | respond (status : Nat) (body : List (String × String))

/-- The error body the authentication middleware sends. -/
def authError (message now : String) : List (String × String) :=
  [("status", "error"), ("message", message), ("timestamp", now)]

/-- The middleware `authenticateService`, on the value of `req.headers['x-service-token']`
(`none` when the header is absent). An absent or empty token is falsy. Everything after
that runs in the `try` block: a throwing `verifyToken`, and reading `service` of a
`null` payload, end in the `catch` response. -/
def authenticateService (now : String) (numTruthy : String → Bool)
    (jwtVerify : String → Except String Json) (serviceToken : Option String) : AuthOutcome :=
  match serviceToken with
  | none => .respond 401 (authError "Service token required" now)
  | some token =>
    if token = "" then .respond 401 (authError "Service token required" now)
    else
      match verifyToken jwtVerify token with
      | .error _ => .respond 403 (authError "Invalid or expired service token" now)
      | .ok .null => .respond 403 (authError "Invalid or expired service token" now)
      | .ok decoded =>
        match prop decoded "service" with
        | none => .respond 403 (authError "Invalid service token" now)
        | some service =>
          if service.truthy numTruthy then .next service
          else .respond 403 (authError "Invalid service token" now)

/-- A verifier for concrete runs: it knows one service token and one user token and
rejects every other text. -/
def scenarioVerify (token : String) : Except String Json :=
  if token = "service.jwt" then
    .ok (.obj [("service", .str "user-service"), ("type", .str "service")])
  else if token = "user.jwt" then .ok (.obj [("userId", .str "42")])
  else .error "invalid signature"

/-- The event of the spec's end-to-end scenario. -/
def annEvent : Json :=
  .obj [("type", .str "user_created"),
        ("data", .obj [("userId", .str "42"), ("name", .str "Ann"), ("email", .str "ann@x.com")])]

/-- The JSON text of `annEvent`. -/
def annText : String :=
  "\x7b\"type\":\"user_created\",\"data\":" ++
    "\x7b\"userId\":\"42\",\"name\":\"Ann\",\"email\":\"ann@x.com\"\x7d\x7d"

/-- An environment for concrete runs: `JSON.parse` knows the text of `annEvent` and
rejects everything else, `EmailLog.create` ends as given. -/
def scenarioEnv (createOutcome : Except String Nat) : Env :=
  { now := "2024-01-01T00:00:00.000Z"
    numToStr := fun literal => literal
    jsonParse := fun content =>
      if content = annText then .ok annEvent
      else .error "Unexpected token"
    create := fun _ => createOutcome }

/-- The delivery of the scenario's event. -/
def annMessage : Message :=
  ⟨1, annText⟩

end EmailService

namespace UserService

/-! ## `user-service/app.js` -/

/-- An observable step of a bring-up loop: the awaited call itself (numbered from 0 in
the order made), a `console.log` line, or the `setTimeout` wait with its delay. -/
inductive Effect where
  | attempt (index : Nat)
  | log (line : String)
  | wait (ms : Nat)
  deriving DecidableEq, Repr

/-- Whether an effect is a `console.log` line. -/
def Effect.isLog : Effect → Bool
  | .log _ => true
  | _ => false

/-- Whether an effect is an awaited call. -/
def Effect.isAttempt : Effect → Bool
  | .attempt _ => true
  | _ => false

/-- Whether an effect is a wait of exactly `ms` milliseconds. -/
def Effect.isWait (ms : Nat) : Effect → Bool
  | .wait d => d == ms
  | _ => false

/-- The loop `while (retries > 0)` of `connectMongoDB`, entered with `retries` left
before attempt number `index`; `connect i` is how the `i`-th `mongoose.connect` ends. -/
def connectMongoDBLoop (connect : Nat → Except String Unit) :
    Nat → Nat → List Effect × Bool
  | 0, _ => ([.log "⚠️  Starting without MongoDB"], false)
  | retries + 1, index =>
    match connect index with
    | .ok _ => ([.attempt index, .log "✅ MongoDB connected successfully"], true)
    | .error message =>
      let rest := connectMongoDBLoop connect retries (index + 1)
      (.attempt index ::
        .log ("❌ MongoDB connection failed (" ++ toString (retries + 1) ++ " retries left): " ++
          message) ::
        ((if retries > 0 then [.wait 5000] else []) ++ rest.1), rest.2)

/-- The function `connectMongoDB`: its effects and the boolean it returns. -/
def connectMongoDB (connect : Nat → Except String Unit) : List Effect × Bool :=
  connectMongoDBLoop connect 5 0

/-- The loop `while (retries > 0)` of `registerWithRegistry`; `post i` is how the `i`-th
`axios.post` to the registry ends. -/
def registerWithRegistryLoop (post : Nat → Except String Unit) : Nat → Nat → List Effect
  | 0, _ => [.log "⚠️ Could not register with service registry after retries"]
  | retries + 1, index =>
    let attempting := Effect.log
      ("🔄 Attempting to register with service registry (" ++ toString (retries + 1) ++
        " retries left)...")
    match post index with
    | .ok _ =>
      [attempting, .attempt index,
       .log "✅ Successfully registered with service registry at http://user-service:8080"]
    | .error message =>
      attempting :: .attempt index :: .log ("❌ Registration failed - " ++ message) ::
        ((if retries > 0 then [.log "⏳ Retrying in 5 seconds...", .wait 5000] else []) ++
          registerWithRegistryLoop post retries (index + 1))

/-- The function `registerWithRegistry`: its effects; it returns nothing. -/
def registerWithRegistry (post : Nat → Except String Unit) : List Effect :=
  registerWithRegistryLoop post 5 0

/-- The attempts and waits of a trace, in order, without the log lines. -/
def steps (trace : List Effect) : List Effect := trace.filter fun e => !e.isLog

/-- Whether an awaited call resolved. -/
def succeeded (outcome : Except String Unit) : Bool :=
  match outcome with
  | .ok _ => true
  | .error _ => false

/-- The schedule of `count` attempts numbered from `start`, with a wait of 5000 ms
between two consecutive attempts and none after the last. -/
def schedule : Nat → Nat → List Effect
  | _, 0 => []
  | start, 1 => [.attempt start]
  | start, count + 1 => .attempt start :: .wait 5000 :: schedule (start + 1) count

end UserService

/-! ## Discovery Directory -/

namespace ServiceRegistry

theorem ownLookup_ownAssign (l : List (String × JsValue)) (k name : String) (v : JsValue) :
    ownLookup (ownAssign l k v) name = if k = name then some v else ownLookup l name := by
  induction l with
  | nil => simp [ownAssign, ownLookup]
  | cons p rest ih =>
    obtain ⟨k', w⟩ := p
    by_cases hk : k' = k
    · subst hk
      by_cases hn : k' = name <;> simp [ownAssign, ownLookup, hn]
    · by_cases hn : k' = name
      · subst hn
        have hne : ¬ k = k' := fun h => hk h.symm
        simp [ownAssign, ownLookup, hk, hne]
      · simp [ownAssign, ownLookup, hk, hn, ih]

theorem ownLookup_set (o : ServicesObject) (k name : String) (v : JsValue)
    (hname : name ≠ "__proto__") :
    ownLookup (o.set k v).own name = if k = name then some v else ownLookup o.own name := by
  unfold ServicesObject.set
  by_cases hk : k = "__proto__"
  · have hne : ¬ "__proto__" = name := fun h => hname h.symm
    simp [hk, hne]
  · simp [hk, ownLookup_ownAssign]

theorem registerAll_cons (s : ServicesObject) (b : RegisterBody) (rest : List RegisterBody) :
    registerAll s (b :: rest) = registerAll (postRegister s b).1 rest := rfl

/-- The own property of the registry under a name other than `__proto__` is the most
recent registration of that name, or what was there before the calls. -/
theorem ownLookup_registerAll (calls : List RegisterBody) (s : ServicesObject) (name : String)
    (hname : name ≠ "__proto__") :
    ownLookup (registerAll s calls).own name =
      match lastRegistered calls name with
      | some b => some b.value
      | none => ownLookup s.own name := by
  induction calls generalizing s with
  | nil => simp [registerAll, lastRegistered]
  | cons b rest ih =>
    rw [registerAll_cons, ih]
    simp only [lastRegistered]
    cases hrest : lastRegistered rest name with
    | some later => simp
    | none =>
      simp only [postRegister, ownLookup_set _ _ _ _ hname]
      by_cases hb : b.key = name <;> simp [hb]

theorem lastRegistered_key (calls : List RegisterBody) (name : String) (b : RegisterBody)
    (h : lastRegistered calls name = some b) : b ∈ calls ∧ b.key = name := by
  induction calls with
  | nil => simp [lastRegistered] at h
  | cons c rest ih =>
    simp only [lastRegistered] at h
    cases hrest : lastRegistered rest name with
    | some later =>
      rw [hrest] at h
      simp only [Option.some.injEq] at h
      subst h
      exact ⟨List.mem_cons_of_mem _ (ih hrest).1, (ih hrest).2⟩
    | none =>
      rw [hrest] at h
      by_cases hc : c.key = name
      · simp only [hc, if_true, Option.some.injEq] at h
        subst h
        exact ⟨List.mem_cons_self _ _, hc⟩
      · simp [hc] at h

theorem lastRegistered_eq_none (calls : List RegisterBody) (name : String) :
    lastRegistered calls name = none ↔ ∀ b ∈ calls, b.key ≠ name := by
  induction calls with
  | nil => simp [lastRegistered]
  | cons c rest ih =>
    simp only [lastRegistered]
    cases hrest : lastRegistered rest name with
    | some later =>
      have hl := lastRegistered_key rest name later hrest
      simp only [false_iff, reduceCtorEq]
      intro hall
      exact hall later (List.mem_cons_of_mem _ hl.1) hl.2
    | none =>
      have hall := ih.mp hrest
      by_cases hc : c.key = name
      · simp [hc]
      · simp only [hc, if_false, true_iff]
        intro b hb
        rcases List.mem_cons.mp hb with h | h
        · exact h ▸ hc
        · exact hall b h

theorem mem_keys_ownAssign (l : List (String × JsValue)) (k name : String) (v : JsValue) :
    name ∈ (ownAssign l k v).map Prod.fst ↔ name = k ∨ name ∈ l.map Prod.fst := by
  induction l with
  | nil => simp [ownAssign]
  | cons p rest ih =>
    obtain ⟨k', w⟩ := p
    by_cases hk : k' = k
    · subst hk
      simp [ownAssign]
    · simp only [ownAssign, hk, if_false, List.map_cons, List.mem_cons, ih]
      tauto

/-- The own property names of the registry after a sequence of calls. -/
theorem mem_own_registerAll (calls : List RegisterBody) (s : ServicesObject) (name : String) :
    name ∈ (registerAll s calls).own.map Prod.fst ↔
      name ∈ s.own.map Prod.fst ∨ (name ≠ "__proto__" ∧ ∃ b ∈ calls, b.key = name) := by
  induction calls generalizing s with
  | nil => simp [registerAll]
  | cons c rest ih =>
    rw [registerAll_cons, ih]
    simp only [postRegister, ServicesObject.set]
    by_cases hc : c.key = "__proto__"
    · simp only [hc, if_true, List.mem_cons, exists_eq_or_imp]
      constructor
      · rintro (h | ⟨hn, hb⟩)
        · exact Or.inl h
        · exact Or.inr ⟨hn, Or.inr hb⟩
      · rintro (h | ⟨hn, h | hb⟩)
        · exact Or.inl h
        · exact absurd h.symm hn
        · exact Or.inr ⟨hn, hb⟩
    · simp only [hc, if_false, mem_keys_ownAssign, List.mem_cons, exists_eq_or_imp]
      constructor
      · rintro ((h | h) | ⟨hn, hb⟩)
        · exact Or.inr ⟨h ▸ hc, Or.inl h.symm⟩
        · exact Or.inl h
        · exact Or.inr ⟨hn, Or.inr hb⟩
      · rintro (h | ⟨hn, h | hb⟩)
        · exact Or.inl (Or.inr h)
        · exact Or.inl (Or.inl h.symm)
        · exact Or.inr ⟨hn, hb⟩

/-- The array `Object.keys(o)` lists exactly the own property names. -/
theorem mem_keys (o : ServicesObject) (name : String) :
    name ∈ o.keys ↔ name ∈ o.own.map Prod.fst := by
  unfold ServicesObject.keys
  rw [List.mem_append]
  constructor
  · rintro (h | h)
    · obtain ⟨q, hq, rfl⟩ := List.mem_map.mp h
      rw [(List.perm_insertionSort _ _).mem_iff] at hq
      obtain ⟨k, hk, hq'⟩ := List.mem_filterMap.mp hq
      cases hidx : arrayIndex? k with
      | none => simp [hidx] at hq'
      | some n =>
        simp only [hidx, Option.map_some', Option.some.injEq] at hq'
        subst hq'
        exact hk
    · exact (List.mem_filter.mp h).1
  · intro h
    cases hidx : arrayIndex? name with
    | none => exact Or.inr (List.mem_filter.mpr ⟨h, by simp [hidx]⟩)
    | some n =>
      refine Or.inl (List.mem_map.mpr ⟨(n, name), ?_, rfl⟩)
      rw [(List.perm_insertionSort _ _).mem_iff]
      exact List.mem_filterMap.mpr ⟨name, h, by simp [hidx]⟩

/-- A lookup of a name that was never registered and that a plain object does not
inherit answers 404. -/
theorem getService_never_registered (calls : List RegisterBody) (name : String)
    (hnever : ∀ b ∈ calls, b.key ≠ name) (hproto : name ≠ "__proto__")
    (hinherited : name ∉ objectPrototypeNames) :
    getService (registerAll .empty calls) name =
      ⟨404, [("error", .str "Service not found")]⟩ := by
  have hown := ownLookup_registerAll calls .empty name hproto
  rw [(lastRegistered_eq_none calls name).mpr hnever] at hown
  simp only [ServicesObject.empty, ownLookup] at hown
  simp only [ServicesObject.empty] at *
  simp [getService, ServicesObject.get, hown, hproto, hinherited, JsValue.truthy]

/-- The acknowledgment of `POST /register` has status `success` and lists every name
registered so far other than `__proto__`, the name just registered included. -/
theorem postRegister_lists_names (calls : List RegisterBody) (b : RegisterBody) :
    ∃ names, (postRegister (registerAll .empty calls) b).2 =
        ⟨200, [("status", .str "success"),
               ("message", .str (b.key ++ " registered successfully")),
               ("registeredServices", .strList names)]⟩ ∧
      ∀ name, name ∈ names ↔ name ≠ "__proto__" ∧ ∃ c ∈ calls ++ [b], c.key = name := by
  refine ⟨((registerAll .empty calls).set b.key b.value).keys, rfl, fun name => ?_⟩
  have h := mem_own_registerAll (calls ++ [b]) .empty name
  have hstep : registerAll .empty (calls ++ [b]) = (registerAll .empty calls).set b.key b.value := by
    simp [registerAll, postRegister]
  rw [hstep] at h
  rw [mem_keys, h]
  simp [ServicesObject.empty]

/-- C1, as stated, fails: after the single call
`POST /register {"serviceName": "email-service", "serviceUrl": ""}` the most recent
registration of `email-service` is that call, yet `GET /services/email-service` answers
404 `Service not found` instead of the registered `serviceUrl`. -/
theorem lookup_of_empty_url_not_found :
    lastRegistered [⟨some "email-service", some ""⟩] "email-service" =
      some ⟨some "email-service", some ""⟩ ∧
    getService (registerAll .empty [⟨some "email-service", some ""⟩]) "email-service" =
      ⟨404, [("error", .str "Service not found")]⟩ := by
  decide

/-- C1 (amended). For every sequence of `POST /register` calls and every service name
other than `__proto__` registered in it, a following `GET /services/:serviceName`
answers with the `serviceUrl` of the most recent registration of that name when that
`serviceUrl` is a non-empty string, and with 404 `Service not found` when it is the
empty string or absent, whatever registrations of other names came in between. -/
theorem lookup_last_write_wins (calls : List RegisterBody) (name : String) (b : RegisterBody)
    (hname : name ≠ "__proto__") (hlast : lastRegistered calls name = some b) :
    getService (registerAll .empty calls) name =
      match b.serviceUrl with
      | some url =>
        if url = "" then ⟨404, [("error", .str "Service not found")]⟩
        else ⟨200, [("serviceName", .str name), ("serviceUrl", .str url)]⟩
      | none => ⟨404, [("error", .str "Service not found")]⟩ := by
  have hown := ownLookup_registerAll calls .empty name hname
  rw [hlast] at hown
  simp only at hown
  unfold getService ServicesObject.get
  rw [hown]
  cases hurl : b.serviceUrl with
  | none => simp [RegisterBody.value, hurl, JsValue.truthy]
  | some url =>
    by_cases hempty : url = ""
    · simp [RegisterBody.value, hurl, JsValue.truthy, hempty]
    · simp [RegisterBody.value, hurl, JsValue.truthy, hempty, jsonObject, JsValue.toJson?]

theorem lookup_last_write_wins_witness :
    "user-service" ≠ "__proto__" ∧
    lastRegistered
        [⟨some "user-service", some "http://user-service:8080"⟩,
         ⟨some "email-service", some "http://email-service:8081"⟩,
         ⟨some "user-service", some "http://10.0.0.5:8080"⟩,
         ⟨some "service-registry", some "http://service-registry:8761"⟩]
        "user-service" = some ⟨some "user-service", some "http://10.0.0.5:8080"⟩ ∧
    getService
        (registerAll .empty
          [⟨some "user-service", some "http://user-service:8080"⟩,
           ⟨some "email-service", some "http://email-service:8081"⟩,
           ⟨some "user-service", some "http://10.0.0.5:8080"⟩,
           ⟨some "service-registry", some "http://service-registry:8761"⟩])
        "user-service" =
      ⟨200, [("serviceName", .str "user-service"),
             ("serviceUrl", .str "http://10.0.0.5:8080")]⟩ :=
  ⟨by decide, by decide,
   lookup_last_write_wins _ "user-service" ⟨some "user-service", some "http://10.0.0.5:8080"⟩
     (by decide) (by decide)⟩

/-- C2: the code answers a lookup miss with a success response for a name a plain
object inherits. With no registration at all, `GET /services/constructor` reads
`Object.prototype.constructor`, which is truthy, and answers status 200 with the body
`{"serviceName": "constructor"}` instead of 404. -/
theorem lookup_of_inherited_name_succeeds :
    lastRegistered [] "constructor" = none ∧
    getService (registerAll .empty []) "constructor" =
      ⟨200, [("serviceName", .str "constructor")]⟩ := by
  decide

/-- C7: the code leaves a registered name out of `registeredServices`. On the empty
registry, `POST /register {"serviceName": "__proto__", "serviceUrl":
"http://user-service:8080"}` assigns through the inherited `__proto__` setter, which
stores nothing: the call answers `success` with `registeredServices: []`, and the
registry is still empty. -/
theorem register_proto_name_not_listed :
    postRegister .empty ⟨some "__proto__", some "http://user-service:8080"⟩ =
      (.empty,
       ⟨200, [("status", .str "success"),
              ("message", .str "__proto__ registered successfully"),
              ("registeredServices", .strList [])]⟩) := by
  decide

end ServiceRegistry

/-! ## Gateway Router -/

namespace ApiGateway

theorem pathname_append (p rest : String)
    (hp : ∀ c ∈ p.data, (c != '?' && c != '#') = true) :
    (pathname (p ++ rest)).data = p.data ++ (pathname rest).data := by
  simp only [pathname, String.data_append]
  exact List.takeWhile_append_of_pos hp

theorem length_eq_data_length (s : String) : s.length = s.data.length := rfl

theorem mountMatches_of_data (pathPrefix path : String) (r : List Char)
    (h : path.data = pathPrefix.data ++ r) :
    mountMatches pathPrefix path = atBoundary r := by
  unfold mountMatches sameIgnoringCase
  rw [h, length_eq_data_length, List.take_left, List.drop_left]
  simp only [beq_self_eq_true, Bool.true_and]

theorem rewritePath_strip (literal rest : String) :
    rewritePath [⟨literal, ""⟩] (literal ++ rest) = rest := by
  have hpre : literal.data.isPrefixOf (literal ++ rest).data = true := by
    rw [String.data_append]
    exact List.isPrefixOf_iff_prefix.mpr (List.prefix_append _ _)
  unfold rewritePath
  simp only [hpre, if_true]
  rw [length_eq_data_length, String.data_append, List.drop_left]
  show "" ++ rest = rest
  exact String.empty_append rest

theorem not_options (method : String) (h : method ≠ "OPTIONS") : (method == "OPTIONS") = false := by
  simpa using h

/-- A pathname that starts with one of the three route prefixes is neither `/` nor
`/health`, and the first route definition matching it is the one of that prefix. -/
theorem route_of_prefixed (pathPrefix : String) (proxy : ServiceProxy) (path : String)
    (r : List Char) (hrule : (pathPrefix, proxy) ∈ routes)
    (hdata : path.data = pathPrefix.data ++ r) (hmatch : mountMatches pathPrefix path = true) :
    routeMatches "/" path = false ∧ routeMatches "/health" path = false ∧
      findRoute routes path = some proxy := by
  have hroot : "/".data = ['/'] := rfl
  have hhealth : "/health".data = ['/', 'h', 'e', 'a', 'l', 't', 'h'] := rfl
  have hauth : "/auth".data = ['/', 'a', 'u', 't', 'h'] := rfl
  have hregistry : "/registry".data = ['/', 'r', 'e', 'g', 'i', 's', 't', 'r', 'y'] := rfl
  have hemails : "/emails".data = ['/', 'e', 'm', 'a', 'i', 'l', 's'] := rfl
  simp only [routes, List.mem_cons, Prod.mk.injEq, List.mem_singleton, List.not_mem_nil,
    or_false] at hrule
  rcases hrule with ⟨rfl, rfl⟩ | ⟨rfl, rfl⟩ | ⟨rfl, rfl⟩
  · refine ⟨?_, ?_, ?_⟩
    · unfold routeMatches sameIgnoringCase
      rw [hdata, hroot, hauth]
      simp
    · unfold routeMatches sameIgnoringCase
      rw [hdata, hhealth, hauth]
      simp
    · simp only [routes, findRoute, hmatch, if_true]
  · refine ⟨?_, ?_, ?_⟩
    · unfold routeMatches sameIgnoringCase
      rw [hdata, hroot, hregistry]
      simp
    · unfold routeMatches sameIgnoringCase
      rw [hdata, hhealth, hregistry]
      simp
    · have hno : mountMatches "/auth" path = false := by
        unfold mountMatches sameIgnoringCase
        rw [hdata, hauth, hregistry]
        simp [String.length]
      simp only [routes, findRoute, hmatch, hno, if_true, if_false, Bool.false_eq_true]
  · refine ⟨?_, ?_, ?_⟩
    · unfold routeMatches sameIgnoringCase
      rw [hdata, hroot, hemails]
      simp
    · unfold routeMatches sameIgnoringCase
      rw [hdata, hhealth, hemails]
      simp
    · have hno : mountMatches "/auth" path = false := by
        unfold mountMatches sameIgnoringCase
        rw [hdata, hauth, hemails]
        simp [String.length]
      have hno' : mountMatches "/registry" path = false := by
        unfold mountMatches sameIgnoringCase
        rw [hdata, hregistry, hemails]
        simp [String.length]
      simp only [routes, findRoute, hmatch, hno, hno', if_true, if_false, Bool.false_eq_true]

theorem findRoute_mem (rs : List (String × ServiceProxy)) (path : String) (proxy : ServiceProxy)
    (h : findRoute rs path = some proxy) : ∃ pathPrefix, (pathPrefix, proxy) ∈ rs := by
  induction rs with
  | nil => simp [findRoute] at h
  | cons r rest ih =>
    obtain ⟨pre, px⟩ := r
    by_cases hm : mountMatches pre path = true
    · simp only [findRoute, hm, if_true, Option.some.injEq] at h
      exact ⟨pre, h ▸ List.mem_cons_self _ _⟩
    · simp only [findRoute, hm, if_false] at h
      obtain ⟨q, hq⟩ := ih h
      exact ⟨q, List.mem_cons_of_mem _ hq⟩

theorem collapseSlashes_of_not_occurs (l : List Char)
    (h : occurs ['/', '/'] l = false) : collapseSlashes l = l := by
  induction l with
  | nil => rfl
  | cons c rest ih =>
    simp only [occurs, Bool.or_eq_false_iff] at h
    obtain ⟨hpre, hrest⟩ := h
    have hno : ¬ (c = '/' ∧ rest.head? = some '/') := by
      rintro ⟨hc, hd⟩
      cases rest with
      | nil => simp at hd
      | cons d tail =>
        simp only [List.head?_cons, Option.some.injEq] at hd
        subst hc
        subst hd
        simp [List.isPrefixOf] at hpre
    simp only [collapseSlashes, hno, if_false, ih hrest]

theorem replaceFirst_of_not_occurs (pat rep l : List Char) (h : occurs pat l = false) :
    replaceFirst pat rep l = l := by
  induction l with
  | nil =>
    simp only [occurs] at h
    simp [replaceFirst, h]
  | cons c rest ih =>
    simp only [occurs, Bool.or_eq_false_iff] at h
    simp only [replaceFirst, h.1, Bool.false_eq_true, if_false, ih h.2]

/-- Nothing of a path without fragment is cut by `outgoingPath`. -/
theorem outgoingPath_of_no_fragment (url : String) (h : '#' ∉ url.data) :
    outgoingPath url = url := by
  have hall : ∀ c ∈ url.data, (c != '#') = true := by
    intro c hc
    simp only [bne_iff_ne, ne_eq]
    intro heq
    exact h (heq ▸ hc)
  unfold outgoingPath
  rw [List.takeWhile_eq_self_iff.mpr hall]

/-- The join of the root path with a path part that starts with `/` and holds no `//`,
`http:/` or `https:/` gives back the outgoing path. -/
theorem urlJoinChars_root_clean (tail : List Char)
    (hslash : occurs ['/', '/'] (('/' :: tail).takeWhile fun c => c != '?') = false)
    (hhttp : occurs "http:/".data (('/' :: tail).takeWhile fun c => c != '?') = false)
    (hhttps : occurs "https:/".data (('/' :: tail).takeWhile fun c => c != '?') = false) :
    urlJoinChars ['/'] ('/' :: tail) = '/' :: tail := by
  have hpart : (('/' :: tail).takeWhile fun c => c != '?') =
      '/' :: tail.takeWhile fun c => c != '?' := by
    rw [List.takeWhile_cons_of_pos (by decide)]
  rw [hpart] at hslash hhttp hhttps
  have hcollapse : collapseSlashes
      (['/'] ++ '/' :: '/' :: tail.takeWhile fun c => c != '?') =
      '/' :: tail.takeWhile fun c => c != '?' := by
    have h1 : collapseSlashes (['/'] ++ '/' :: '/' :: tail.takeWhile fun c => c != '?') =
        collapseSlashes ('/' :: tail.takeWhile fun c => c != '?') := by
      simp [collapseSlashes]
    rw [h1, collapseSlashes_of_not_occurs _ hslash]
  unfold urlJoinChars
  simp only [hpart, List.isEmpty_cons, Bool.false_eq_true, if_false, hcollapse]
  rw [replaceFirst_of_not_occurs _ _ _ hhttp, replaceFirst_of_not_occurs _ _ _ hhttps]
  have := List.takeWhile_append_dropWhile (fun c => c != '?') ('/' :: tail)
  rw [hpart] at this
  exact this

/-- The join of the root path with a bare query string puts the root path in front. -/
theorem urlJoinChars_root_query (query : List Char) :
    urlJoinChars ['/'] ('?' :: query) = '/' :: '?' :: query := by
  have hpart : (('?' :: query).takeWhile fun c => c != '?') = [] := by
    rw [List.takeWhile_cons_of_neg (by decide)]
  have hdrop : (('?' :: query).dropWhile fun c => c != '?') = '?' :: query := by
    rw [List.dropWhile_cons_of_neg (by decide)]
  unfold urlJoinChars
  simp only [hpart, hdrop, List.isEmpty_cons, List.isEmpty_nil, Bool.false_eq_true, if_false,
    if_true]
  rfl

theorem proxyRequest_of_route (serviceName target literal url : String)
    (htarget : services.lookup serviceName = some target) :
    proxyRequest (createServiceProxy serviceName [⟨literal, ""⟩]) url =
      .forward serviceName target
        (urlJoin (targetPath target) (outgoingPath (rewritePath [⟨literal, ""⟩] url))) := by
  simp only [proxyRequest, createServiceProxy, htarget]

/-- The three route definitions as prefix, service name and target URL. -/
theorem route_of_table (pathPrefix serviceName target : String)
    (hrule : (pathPrefix, serviceName, target) ∈
      [("/auth", "user-service", "http://user-service:8080"),
       ("/registry", "service-registry", "http://service-registry:8761"),
       ("/emails", "email-service", "http://email-service:8081")]) :
    (pathPrefix, createServiceProxy serviceName [⟨pathPrefix, ""⟩]) ∈ routes ∧
      services.lookup serviceName = some target ∧ targetPath target = "/" ∧
      ∀ c ∈ pathPrefix.data, (c != '?' && c != '#') = true := by
  simp only [List.mem_cons, Prod.mk.injEq, List.mem_singleton, List.not_mem_nil, or_false]
    at hrule
  rcases hrule with ⟨rfl, rfl, rfl⟩ | ⟨rfl, rfl, rfl⟩ | ⟨rfl, rfl, rfl⟩ <;>
    exact ⟨by decide, by decide, by decide, by decide⟩

/-- A request of a method other than `OPTIONS` whose origin-form target is a route
prefix followed by `rest`, and whose pathname the route matches, is forwarded to the
route's target with the join of `/` and `rest` as path. -/
theorem forward_of_prefixed (now method pathPrefix serviceName target rest : String)
    (hrule : (pathPrefix, serviceName, target) ∈
      [("/auth", "user-service", "http://user-service:8080"),
       ("/registry", "service-registry", "http://service-registry:8761"),
       ("/emails", "email-service", "http://email-service:8081")])
    (hform : originForm (pathPrefix ++ rest) = true)
    (hmatch : mountMatches pathPrefix (pathname (pathPrefix ++ rest)) = true)
    (hmethod : method ≠ "OPTIONS") :
    dispatch now ⟨method, pathPrefix ++ rest⟩ =
      .forward serviceName target (urlJoin "/" (outgoingPath rest)) := by
  obtain ⟨hroute, htarget, hpath, hq⟩ := route_of_table pathPrefix serviceName target hrule
  have hdata := pathname_append pathPrefix rest hq
  obtain ⟨hroot, hhealth, hfind⟩ :=
    route_of_prefixed pathPrefix _ _ _ hroute hdata hmatch
  simp only [dispatch, not_options method hmethod, hform, hroot, hhealth, hfind,
    proxyRequest_of_route serviceName target pathPrefix _ htarget, rewritePath_strip, hpath,
    Bool.and_false, if_false, Bool.false_eq_true, Bool.not_true]

/-- C3, as stated, fails: `GET /auth` is `/auth` followed by the empty rest and matches
the `/auth` rule, yet the path issued to user-service is `/`, not the empty rest; and
`GET /auth//login` reaches user-service as `/login`, not as `//login`. -/
theorem bare_prefix_reaches_upstream_as_root :
    mountMatches "/auth" (pathname ("/auth" ++ "")) = true ∧
    dispatch "2024-01-01T00:00:00.000Z" ⟨"GET", "/auth" ++ ""⟩ =
      .forward "user-service" "http://user-service:8080" "/" ∧
    mountMatches "/auth" (pathname ("/auth" ++ "//login")) = true ∧
    dispatch "2024-01-01T00:00:00.000Z" ⟨"GET", "/auth" ++ "//login"⟩ =
      .forward "user-service" "http://user-service:8080" "/login" := by
  decide

/-- C3 (amended). For every route rule (`/auth` to user-service, `/registry` to
service-registry, `/emails` to email-service), every request method other than
`OPTIONS` and every origin-form request target `prefix ++ rest` whose pathname the
rule matches, the request is forwarded to the rule's target, the prefix stripped once
and the remainder joined to the target's root path. The upstream path is exactly
`rest` when `rest` starts with `/`, has no fragment, and its part before the query
string holds no `//`, `http:/` or `https:/`; it is `/` when `rest` is empty and
`/?query` when `rest` is `?query`; in every case it is `urlJoin` of `/` and `rest`
without its fragment. -/
theorem forward_path_is_joined_rest (now method pathPrefix serviceName target rest : String)
    (hrule : (pathPrefix, serviceName, target) ∈
      [("/auth", "user-service", "http://user-service:8080"),
       ("/registry", "service-registry", "http://service-registry:8761"),
       ("/emails", "email-service", "http://email-service:8081")])
    (hform : originForm (pathPrefix ++ rest) = true)
    (hmatch : mountMatches pathPrefix (pathname (pathPrefix ++ rest)) = true)
    (hmethod : method ≠ "OPTIONS") :
    ∃ path, dispatch now ⟨method, pathPrefix ++ rest⟩ = .forward serviceName target path ∧
      (rest = "" → path = "/") ∧
      (∀ query : String, rest = "?" ++ query → '#' ∉ query.data → path = "/?" ++ query) ∧
      (∀ tail : String, rest = "/" ++ tail → '#' ∉ tail.data →
        occurs ['/', '/'] (rest.data.takeWhile fun c => c != '?') = false →
        occurs "http:/".data (rest.data.takeWhile fun c => c != '?') = false →
        occurs "https:/".data (rest.data.takeWhile fun c => c != '?') = false →
        path = rest) ∧
      path = urlJoin "/" (outgoingPath rest) := by
  refine ⟨_, forward_of_prefixed now method pathPrefix serviceName target rest hrule hform
    hmatch hmethod, ?_, ?_, ?_, rfl⟩
  · intro h
    subst h
    decide
  · intro query h hfrag
    subst h
    have hno : '#' ∉ ("?" ++ query).data := by
      simp only [String.data_append, List.mem_append, not_or]
      exact ⟨by decide, hfrag⟩
    rw [outgoingPath_of_no_fragment _ hno]
    show (⟨urlJoinChars ['/'] ('?' :: query.data)⟩ : String) = ⟨'/' :: '?' :: query.data⟩
    rw [urlJoinChars_root_query]
  · intro tail h hfrag hslash hhttp hhttps
    subst h
    have hno : '#' ∉ ("/" ++ tail).data := by
      simp only [String.data_append, List.mem_append, not_or]
      exact ⟨by decide, hfrag⟩
    rw [outgoingPath_of_no_fragment _ hno]
    show (⟨urlJoinChars ['/'] ('/' :: tail.data)⟩ : String) = ⟨'/' :: tail.data⟩
    rw [urlJoinChars_root_clean tail.data hslash hhttp hhttps]

theorem forward_path_is_joined_rest_witness :
    ("/auth", "user-service", "http://user-service:8080") ∈
      [("/auth", "user-service", "http://user-service:8080"),
       ("/registry", "service-registry", "http://service-registry:8761"),
       ("/emails", "email-service", "http://email-service:8081")] ∧
    originForm ("/auth" ++ "/login?next=/home") = true ∧
    mountMatches "/auth" (pathname ("/auth" ++ "/login?next=/home")) = true ∧
    dispatch "2024-01-01T00:00:00.000Z" ⟨"POST", "/auth" ++ "/login?next=/home"⟩ =
      .forward "user-service" "http://user-service:8080" "/login?next=/home" := by
  refine ⟨by decide, by decide, by decide, ?_⟩
  obtain ⟨path, hd, _, _, hclean, _⟩ :=
    forward_path_is_joined_rest "2024-01-01T00:00:00.000Z" "POST" "/auth" "user-service"
      "http://user-service:8080" "/login?next=/home" (by decide) (by decide) (by decide)
      (by decide)
  rw [hd, hclean "login?next=/home" rfl (by decide) (by decide) (by decide) (by decide)]

/-- A request is forwarded only to the service and target of one of the three route
definitions. -/
theorem forward_names_route (now : String) (req : Request) (serviceName target path : String)
    (h : dispatch now req = .forward serviceName target path) :
    (serviceName, target) ∈
      [("user-service", "http://user-service:8080"),
       ("service-registry", "http://service-registry:8761"),
       ("email-service", "http://email-service:8081")] := by
  unfold dispatch at h
  simp only at h
  split at h
  · simp at h
  · split at h
    · simp at h
    · split at h
      · simp at h
      · split at h
        · simp at h
        · split at h
          · rename_i px hpx
            obtain ⟨pre, hmem⟩ := findRoute_mem routes _ px hpx
            simp only [routes, List.mem_cons, Prod.mk.injEq, List.mem_singleton,
              List.not_mem_nil, or_false] at hmem
            rcases hmem with ⟨_, rfl⟩ | ⟨_, rfl⟩ | ⟨_, rfl⟩
            · rw [proxyRequest_of_route "user-service" "http://user-service:8080" "/auth" _
                (by decide)] at h
              simp only [Dispatch.forward.injEq] at h
              obtain ⟨rfl, rfl, _⟩ := h
              decide
            · rw [proxyRequest_of_route "service-registry" "http://service-registry:8761"
                "/registry" _ (by decide)] at h
              simp only [Dispatch.forward.injEq] at h
              obtain ⟨rfl, rfl, _⟩ := h
              decide
            · rw [proxyRequest_of_route "email-service" "http://email-service:8081" "/emails" _
                (by decide)] at h
              simp only [Dispatch.forward.injEq] at h
              obtain ⟨rfl, rfl, _⟩ := h
              decide
          · split at h <;> simp at h

/-- A fragment ends the pathname: `GET /health#x` is the health endpoint, and
`POST /auth#x` is forwarded to user-service with path `/`. -/
theorem fragment_ends_pathname :
    dispatch "2024-01-01T00:00:00.000Z" ⟨"GET", "/health#x"⟩ =
      .respond ⟨200, .json [("status", "healthy"), ("service", "api-gateway")]⟩ ∧
    dispatch "2024-01-01T00:00:00.000Z" ⟨"POST", "/auth#x"⟩ =
      .forward "user-service" "http://user-service:8080" "/" := by
  decide

/-- C4, as stated, fails: the pathname `/health` matches none of the route definitions
`/auth`, `/registry`, `/emails`, yet `GET /health` is answered by the gateway's own
health endpoint with status 200, not with the 404 payload. -/
theorem health_path_matches_no_route_yet_200 :
    findRoute routes (pathname "/health") = none ∧
    handle "2024-01-01T00:00:00.000Z" (fun _ _ => .failure "ECONNREFUSED" "refused")
        ⟨"GET", "/health"⟩ =
      some ⟨.response ⟨200, .json [("status", "healthy"), ("service", "api-gateway")]⟩, []⟩ := by
  decide

/-- C4 (amended). For every inbound request with an origin-form target and a method
other than `OPTIONS`, whose pathname matches none of the route definitions and which is
not a `GET` or `HEAD` of one of the gateway's own endpoints `/`, `/health`,
`/gateway-test`, the gateway answers with status 404; unless the method is `HEAD` the
response carries the payload with `error`, the original request target as `path`, and
the timestamp, and for `HEAD` it carries no body. No upstream call decides the answer. -/
theorem unrouted_request_answers_404 (now : String) (upstream : String → String → UpstreamResult)
    (req : Request) (hform : originForm req.originalUrl = true)
    (hnone : findRoute routes (pathname req.originalUrl) = none)
    (hmethod : req.method ≠ "OPTIONS")
    (hlocal : isGetOrHead req.method = true →
      routeMatches "/" (pathname req.originalUrl) = false ∧
      routeMatches "/health" (pathname req.originalUrl) = false ∧
      routeMatches "/gateway-test" (pathname req.originalUrl) = false) :
    (req.method ≠ "HEAD" →
      handle now upstream req =
        some ⟨.response ⟨404, .json [("error", "Route not found"), ("path", req.originalUrl),
          ("timestamp", now)]⟩, []⟩) ∧
    (req.method = "HEAD" →
      handle now upstream req = some ⟨.response ⟨404, .empty⟩, []⟩) := by
  have hopt := not_options req.method hmethod
  have hdispatch : dispatch now req =
      .respond (send req.method ⟨404, .json [("error", "Route not found"),
        ("path", req.originalUrl), ("timestamp", now)]⟩) := by
    cases hget : isGetOrHead req.method with
    | false =>
      simp only [dispatch, hopt, hform, hget, hnone, Bool.false_and, if_false,
        Bool.false_eq_true, Bool.not_true]
    | true =>
      obtain ⟨h1, h2, h3⟩ := hlocal hget
      simp only [dispatch, hopt, hform, hget, hnone, h1, h2, h3, Bool.and_false, if_false,
        Bool.false_eq_true, Bool.not_true]
  constructor
  · intro hhead
    have hb : (req.method == "HEAD") = false := by simpa using hhead
    simp only [handle, hdispatch, send, hb, Bool.false_eq_true, if_false]
  · intro hhead
    have hb : (req.method == "HEAD") = true := by simpa using hhead
    simp only [handle, hdispatch, send, hb, if_true]

theorem unrouted_request_answers_404_witness :
    originForm "/authx/login?next=1" = true ∧
    findRoute routes (pathname "/authx/login?next=1") = none ∧
    "GET" ≠ "OPTIONS" ∧
    handle "2024-01-01T00:00:00.000Z" (fun _ _ => .failure "ECONNREFUSED" "refused")
        ⟨"GET", "/authx/login?next=1"⟩ =
      some ⟨.response ⟨404, .json [("error", "Route not found"),
        ("path", "/authx/login?next=1"), ("timestamp", "2024-01-01T00:00:00.000Z")]⟩, []⟩ :=
  ⟨by decide, by decide, by decide,
   (unrouted_request_answers_404 _ _ ⟨"GET", "/authx/login?next=1"⟩ (by decide) (by decide)
     (by decide) (by decide)).1 (by decide)⟩

/-- C5, as stated, fails. When user-service accepts `GET /auth/login` and then stays
silent, the client's connection is closed after the 10 s timeout with no response at
all, so no 502 reaches the caller. And when the connection to user-service is refused
on a `HEAD` request, the 502 carries no payload. -/
theorem silent_upstream_gets_no_502 :
    handle "2024-01-01T00:00:00.000Z" (fun _ _ => .timeout) ⟨"GET", "/auth/login"⟩ =
      some ⟨.connectionClosed, []⟩ ∧
    handle "2024-01-01T00:00:00.000Z"
        (fun _ _ => .failure "ECONNREFUSED" "connect ECONNREFUSED 10.0.0.7:8080")
        ⟨"HEAD", "/auth/login"⟩ =
      some ⟨.response ⟨502, .empty⟩,
        ["❌ GATEWAY ERROR for user-service: connect ECONNREFUSED 10.0.0.7:8080"]⟩ := by
  decide

/-- C5 (amended). For every request the gateway forwards and every transport failure of
the upstream call that is reported while the client connection is open (connection
refused, resolve failure), the caller receives status 502; unless the method is `HEAD`
the response carries the payload naming the target service (`error`), the fixed reason
(`message`) and the timestamp, and for `HEAD` it carries no body. The service is one of
the three configured ones, the error's message goes to `console.error` only, and what
the caller receives is the same for every such failure. -/
theorem transport_failure_answers_502 (now : String)
    (upstream : String → String → UpstreamResult) (req : Request)
    (serviceName target path code message : String)
    (hforward : dispatch now req = .forward serviceName target path)
    (hfail : upstream target path = .failure code message) :
    (req.method ≠ "HEAD" →
      handle now upstream req =
        some ⟨.response ⟨502, .json [("error", serviceName ++ " unavailable"),
          ("message", "Service is not responding"), ("timestamp", now)]⟩,
          ["❌ GATEWAY ERROR for " ++ serviceName ++ ": " ++ message]⟩) ∧
    (req.method = "HEAD" →
      handle now upstream req =
        some ⟨.response ⟨502, .empty⟩,
          ["❌ GATEWAY ERROR for " ++ serviceName ++ ": " ++ message]⟩) ∧
    (serviceName, target) ∈
      [("user-service", "http://user-service:8080"),
       ("service-registry", "http://service-registry:8761"),
       ("email-service", "http://email-service:8081")] ∧
    ∀ (upstream' : String → String → UpstreamResult) (code' message' : String),
      upstream' target path = .failure code' message' →
      (handle now upstream' req).map Handled.outcome =
        (handle now upstream req).map Handled.outcome := by
  refine ⟨?_, ?_, forward_names_route now req serviceName target path hforward, ?_⟩
  · intro hhead
    have hb : (req.method == "HEAD") = false := by simpa using hhead
    simp only [handle, hforward, hfail, onError, send, hb, Bool.false_eq_true, if_false]
  · intro hhead
    have hb : (req.method == "HEAD") = true := by simpa using hhead
    simp only [handle, hforward, hfail, onError, send, hb, if_true]
  · intro upstream' code' message' hfail'
    simp only [handle, hforward, hfail, hfail', onError, Option.map_some']

theorem transport_failure_answers_502_witness :
    dispatch "2024-01-01T00:00:00.000Z" ⟨"GET", "/emails/email-logs"⟩ =
      .forward "email-service" "http://email-service:8081" "/email-logs" ∧
    handle "2024-01-01T00:00:00.000Z"
        (fun _ _ => .failure "ECONNREFUSED" "connect ECONNREFUSED 10.0.0.7:8081")
        ⟨"GET", "/emails/email-logs"⟩ =
      some ⟨.response ⟨502, .json [("error", "email-service unavailable"),
        ("message", "Service is not responding"),
        ("timestamp", "2024-01-01T00:00:00.000Z")]⟩,
        ["❌ GATEWAY ERROR for email-service: connect ECONNREFUSED 10.0.0.7:8081"]⟩ :=
  ⟨by decide,
   (transport_failure_answers_502 "2024-01-01T00:00:00.000Z"
     (fun _ _ => .failure "ECONNREFUSED" "connect ECONNREFUSED 10.0.0.7:8081")
     ⟨"GET", "/emails/email-logs"⟩ "email-service" "http://email-service:8081" "/email-logs"
     "ECONNREFUSED" "connect ECONNREFUSED 10.0.0.7:8081" (by decide) rfl).1 (by decide)⟩

end ApiGateway

/-! ## Event Channel -/

namespace EmailService

theorem onMessage_parse_error (env : Env) (m : Message) (e : String)
    (h : env.jsonParse m.content = .error e) :
    onMessage env (some m) = ⟨[], some (.syntaxError e)⟩ := by
  simp only [onMessage, h]

theorem onMessage_null (env : Env) (m : Message) (h : env.jsonParse m.content = .ok .null) :
    onMessage env (some m) =
      ⟨[], some (.typeError "Cannot read properties of null (reading 'type')")⟩ := by
  simp only [onMessage, h]

theorem isUserCreated_null : isUserCreated .null = false := rfl

theorem onMessage_decoded (env : Env) (m : Message) (event : Json)
    (h : env.jsonParse m.content = .ok event) (hnull : event ≠ .null) :
    onMessage env (some m) =
      match toStr env (prop event "type") with
      | .error err => ⟨[], some err⟩
      | .ok typeText => processEvent env m event typeText := by
  cases event <;> first | exact absurd rfl hnull | simp only [onMessage, h]

/-- The type of a `user_created` event converts to the text `user_created`. -/
theorem toStr_type_of_user_created (env : Env) (event : Json)
    (htype : isUserCreated event = true) :
    toStr env (prop event "type") = .ok "user_created" := by
  unfold isUserCreated at htype
  split at htype
  · rename_i s hs
    have hs' : s = "user_created" := by simpa using htype
    rw [hs, hs']
    simp only [toStr, jsonToString]
  · exact absurd htype (by simp)

/-- The welcome handler never acknowledges a message itself. -/
theorem sendWelcomeEmail_no_ack (env : Env) (userData : JsVal) :
    (sendWelcomeEmail env userData).trace.any Effect.isAck = false := by
  unfold sendWelcomeEmail
  split
  · rfl
  · rfl
  · split
    · rfl
    · simp only
      split
      · simp [Effect.isAck, failedToLog]
      · split <;> simp [Effect.isAck, failedToLog]

/-- The consumer callback after decoding: an error of the handler ends it without an
acknowledgment; otherwise the acknowledgment is its last effect. -/
theorem processEvent_ack (env : Env) (m : Message) (event : Json) (typeText : String) :
    (isUserCreated event = true →
      (sendWelcomeEmail env (prop event "data")).raised.isSome = true →
      (processEvent env m event typeText).raised.isSome = true) ∧
    ((processEvent env m event typeText).raised.isSome = true →
      (processEvent env m event typeText).trace.any Effect.isAck = false) ∧
    ((processEvent env m event typeText).trace.any Effect.isAck = true →
      ∃ pre, (processEvent env m event typeText).raised = none ∧
        (processEvent env m event typeText).trace = pre ++ [.ack m] ∧
        pre.any Effect.isAck = false ∧
        (isUserCreated event = true →
          (sendWelcomeEmail env (prop event "data")).raised = none ∧
          (sendWelcomeEmail env (prop event "data")).trace <:+ pre)) := by
  have hnoack := sendWelcomeEmail_no_ack env (prop event "data")
  unfold processEvent
  cases htype : isUserCreated event with
  | false =>
    refine ⟨by simp, by simp, fun _ => ⟨[received env typeText], rfl, rfl, ?_, by simp⟩⟩
    simp [Effect.isAck, received]
  | true =>
    simp only [if_true]
    cases hraised : (sendWelcomeEmail env (prop event "data")).raised with
    | some err =>
      refine ⟨by simp, fun _ => ?_, fun h => ?_⟩
      · simp [Effect.isAck, received, hnoack]
      · simp [Effect.isAck, received, hnoack] at h
    | none =>
      refine ⟨by simp, by simp, fun _ =>
        ⟨received env typeText :: (sendWelcomeEmail env (prop event "data")).trace, rfl, rfl,
          ?_, fun _ => ⟨rfl, List.suffix_cons _ _⟩⟩⟩
      simp [Effect.isAck, received, hnoack]

/-- C6. For every delivered message: if decoding it raises, or if the event is a
`user_created` one and the welcome handler raises, the consumer callback ends with an
error; a callback that ends with an error has made no `channel.ack` call; and when the
message is acknowledged, decoding succeeded, the callback ended without error, the
`channel.ack` call is the last effect and the only acknowledgment, and for a
`user_created` event the handler ended without error with all its effects before the
acknowledgment. -/
theorem ack_only_after_decode_and_handler (env : Env) (m : Message) :
    (∀ e, env.jsonParse m.content = .error e → (onMessage env (some m)).raised.isSome = true) ∧
    (∀ event, env.jsonParse m.content = .ok event → isUserCreated event = true →
      (sendWelcomeEmail env (prop event "data")).raised.isSome = true →
      (onMessage env (some m)).raised.isSome = true) ∧
    ((onMessage env (some m)).raised.isSome = true →
      (onMessage env (some m)).trace.any Effect.isAck = false) ∧
    ((onMessage env (some m)).trace.any Effect.isAck = true →
      ∃ event pre, env.jsonParse m.content = .ok event ∧
        (onMessage env (some m)).raised = none ∧
        (onMessage env (some m)).trace = pre ++ [.ack m] ∧
        pre.any Effect.isAck = false ∧
        (isUserCreated event = true →
          (sendWelcomeEmail env (prop event "data")).raised = none ∧
          (sendWelcomeEmail env (prop event "data")).trace <:+ pre)) := by
  cases hparse : env.jsonParse m.content with
  | error e =>
    rw [onMessage_parse_error env m e hparse]
    simp
  | ok event =>
    by_cases hnull : event = .null
    · subst hnull
      rw [onMessage_null env m hparse]
      simp [isUserCreated_null]
    · rw [onMessage_decoded env m event hparse hnull]
      cases htext : toStr env (prop event "type") with
      | error err =>
        refine ⟨by simp, by simp, by simp, by simp⟩
      | ok typeText =>
        obtain ⟨h1, h2, h3⟩ := processEvent_ack env m event typeText
        refine ⟨by simp, ?_, h2, ?_⟩
        · intro event' h' htype' hsome
          simp only [Except.ok.injEq] at h'
          subst h'
          exact h1 htype' hsome
        · intro hack
          obtain ⟨pre, hp⟩ := h3 hack
          exact ⟨event, pre, rfl, hp⟩

theorem ack_only_after_decode_and_handler_witness :
    (scenarioEnv (.ok 7)).jsonParse "not json" = .error "Unexpected token" ∧
    (onMessage (scenarioEnv (.ok 7)) (some ⟨2, "not json"⟩)).raised.isSome = true ∧
    (onMessage (scenarioEnv (.ok 7)) (some ⟨2, "not json"⟩)).trace.any Effect.isAck = false :=
  ⟨rfl,
   (ack_only_after_decode_and_handler (scenarioEnv (.ok 7)) ⟨2, "not json"⟩).1
     "Unexpected token" rfl,
   (ack_only_after_decode_and_handler (scenarioEnv (.ok 7)) ⟨2, "not json"⟩).2.2.1
     ((ack_only_after_decode_and_handler (scenarioEnv (.ok 7)) ⟨2, "not json"⟩).1
       "Unexpected token" rfl)⟩

/-- The welcome handler on a data object whose `email` has a string conversion. -/
theorem sendWelcomeEmail_obj (env : Env) (props : List (String × Json)) (emailText : String)
    (hemail : toStr env (prop (.obj props) "email") = .ok emailText) :
    sendWelcomeEmail env (some (.obj props)) =
      match toStr env (prop (.obj props) "name") with
      | .error err =>
        ⟨[.log ("[" ++ env.now ++ "] 📧 EMAIL_SERVICE: Sending welcome email to " ++ emailText),
          failedToLog env err.message], none⟩
      | .ok nameText =>
        match env.create (welcomeFields nameText (.obj props)) with
        | .ok id =>
          ⟨[.log ("[" ++ env.now ++ "] 📧 EMAIL_SERVICE: Sending welcome email to " ++
              emailText),
            .create (welcomeFields nameText (.obj props)),
            .log ("[" ++ env.now ++
              "] 💾 EMAIL_SERVICE: Email logged to PostgreSQL with ID: " ++ toString id),
            .log ("[" ++ env.now ++ "] ✅ EMAIL_SERVICE: Welcome email sent to " ++ nameText ++
              " (" ++ emailText ++ ")")], none⟩
        | .error message =>
          ⟨[.log ("[" ++ env.now ++ "] 📧 EMAIL_SERVICE: Sending welcome email to " ++
              emailText),
            .create (welcomeFields nameText (.obj props)), failedToLog env message], none⟩ := by
  simp only [sendWelcomeEmail, hemail]

/-- C10. For every delivered `user_created` message whose `data` is an object carrying
an `email` that converts to a string (as every string does), whatever `EmailLog.create`
does: the handler and the consumer callback end without error and `channel.ack` for the
message is the final effect; when `name` converts to a string too, the write of the
record is requested before the acknowledgment, and a failed write is written with
`console.error`, as the line `[timestamp] ❌ EMAIL_SERVICE: Failed to log email to
database:` followed by the error's message, before the acknowledgment and is not
raised. -/
theorem ack_whether_persistence_succeeds (env : Env) (m : Message) (event : Json)
    (props : List (String × Json)) (emailText : String)
    (hparse : env.jsonParse m.content = .ok event) (htype : isUserCreated event = true)
    (hdata : prop event "data" = some (.obj props))
    (hemail : toStr env (prop (.obj props) "email") = .ok emailText) :
    (sendWelcomeEmail env (prop event "data")).raised = none ∧
    (onMessage env (some m)).raised = none ∧
    (∃ pre, (onMessage env (some m)).trace = pre ++ [.ack m] ∧
      ∀ nameText, toStr env (prop (.obj props) "name") = .ok nameText →
        .create (welcomeFields nameText (.obj props)) ∈ pre ∧
        ∀ e, env.create (welcomeFields nameText (.obj props)) = .error e →
          Effect.logError ("[" ++ env.now ++
            "] ❌ EMAIL_SERVICE: Failed to log email to database: " ++ e) ∈ pre) := by
  have hnull : event ≠ .null := by
    intro h
    rw [h, isUserCreated_null] at htype
    exact absurd htype (by simp)
  rw [onMessage_decoded env m event hparse hnull, toStr_type_of_user_created env event htype]
  simp only [processEvent, htype, if_true, hdata, sendWelcomeEmail_obj env props emailText hemail]
  cases hname : toStr env (prop (.obj props) "name") with
  | error err =>
    refine ⟨rfl, rfl, _, rfl, ?_⟩
    intro nameText h
    exact absurd h (by simp)
  | ok nameText =>
    dsimp only
    cases hcreate : env.create (welcomeFields nameText (.obj props)) with
    | ok id =>
      refine ⟨rfl, rfl, _, rfl, ?_⟩
      intro nameText' h
      simp only [Except.ok.injEq] at h
      subst h
      refine ⟨by simp, ?_⟩
      intro e he
      rw [hcreate] at he
      exact absurd he (by simp)
    | error message =>
      refine ⟨rfl, rfl, _, rfl, ?_⟩
      intro nameText' h
      simp only [Except.ok.injEq] at h
      subst h
      refine ⟨by simp, ?_⟩
      intro e he
      rw [hcreate] at he
      simp only [Except.error.injEq] at he
      subst he
      simp [failedToLog]

theorem ack_whether_persistence_succeeds_witness :
    (scenarioEnv (.error "connection refused")).jsonParse annMessage.content = .ok annEvent ∧
    isUserCreated annEvent = true ∧
    (onMessage (scenarioEnv (.error "connection refused")) (some annMessage)).raised = none ∧
    ∃ pre, (onMessage (scenarioEnv (.error "connection refused")) (some annMessage)).trace =
      pre ++ [.ack annMessage] ∧
      Effect.logError ("[2024-01-01T00:00:00.000Z] ❌ EMAIL_SERVICE: Failed to log email " ++
        "to database: connection refused") ∈ pre :=
  have h := ack_whether_persistence_succeeds (scenarioEnv (.error "connection refused"))
    annMessage annEvent
    [("userId", .str "42"), ("name", .str "Ann"), ("email", .str "ann@x.com")] "ann@x.com"
    rfl (by decide) rfl rfl
  ⟨rfl, by decide, h.2.1,
   h.2.2.elim fun pre hp => ⟨pre, hp.1, (hp.2 "Ann" rfl).2 "connection refused" rfl⟩⟩

/-- C8: the listeners do not clear the channel handle. With `channel` declared
`const` as in `setupRabbitMQ`, the `'error'` and the `'close'` listener each write their
log line and then raise `TypeError: Assignment to constant variable.` at
`channel = null`: the binding still holds the channel and the error leaves the
listener. -/
theorem disconnect_listeners_raise (now errMessage : String) (ch : Channel) :
    onConnectionError now (channelBinding ch) errMessage =
      ⟨["[" ++ now ++ "] ❌ RabbitMQ connection error: " ++ errMessage], ⟨.const, some ch⟩,
       some (.typeError "Assignment to constant variable.")⟩ ∧
    onConnectionClose now (channelBinding ch) =
      ⟨["[" ++ now ++ "] ❌ RabbitMQ connection closed"], ⟨.const, some ch⟩,
       some (.typeError "Assignment to constant variable.")⟩ :=
  ⟨rfl, rfl⟩

/-- C9, as stated, fails: when `amqp.connect` is refused, `setupRabbitMQ` returns
`null`, and the health response still reports `checks.rabbitmq` as `connected`. -/
theorem health_reports_connected_after_failed_setup :
    (setupRabbitMQ "2024-01-01T00:00:00.000Z"
      ⟨.error "connect ECONNREFUSED 10.0.0.9:5672", .ok ⟨1⟩, .ok (), .ok (), .ok ()⟩).returned =
      none ∧
    (getHealth ⟨"2024-01-01T00:00:10.000Z", "rss", "12.5", .ok (), .ok ()⟩).checks.rabbitmq =
      "connected" := by
  decide

/-- C9 (amended). When connection setup fails, `setupRabbitMQ` writes the failure with
`console.error` and returns `null` without raising, so the component is Disconnected;
the `GET /health` response does not show it: `checks.rabbitmq` is `connected` for every
outcome of the checks the handler runs, whatever setup returned. -/
theorem failed_setup_not_shown_by_health (now e : String) (broker : Broker) (i : HealthInputs)
    (hfail : setupSteps broker = .error e) :
    setupRabbitMQ now broker =
      ⟨["[" ++ now ++ "] ❌ Failed to connect to RabbitMQ: " ++ e], none, none⟩ ∧
    (getHealth i).checks.rabbitmq = "connected" := by
  refine ⟨by simp only [setupRabbitMQ, hfail], ?_⟩
  unfold getHealth
  cases i.authenticate <;> cases i.registryHealth <;> rfl

theorem failed_setup_not_shown_by_health_witness :
    setupSteps ⟨.ok (), .ok ⟨1⟩, .error "NOT_FOUND - no exchange", .ok (), .ok ()⟩ =
      .error "NOT_FOUND - no exchange" ∧
    setupRabbitMQ "2024-01-01T00:00:00.000Z"
        ⟨.ok (), .ok ⟨1⟩, .error "NOT_FOUND - no exchange", .ok (), .ok ()⟩ =
      ⟨["[2024-01-01T00:00:00.000Z] ❌ Failed to connect to RabbitMQ: NOT_FOUND - no exchange"],
       none, none⟩ ∧
    (getHealth ⟨"2024-01-01T00:00:10.000Z", "rss", "12.5", .error "down", .ok ()⟩).checks.rabbitmq =
      "connected" :=
  ⟨rfl,
   failed_setup_not_shown_by_health "2024-01-01T00:00:00.000Z" "NOT_FOUND - no exchange"
     ⟨.ok (), .ok ⟨1⟩, .error "NOT_FOUND - no exchange", .ok (), .ok ()⟩
     ⟨"2024-01-01T00:00:10.000Z", "rss", "12.5", .error "down", .ok ()⟩ rfl⟩

/-- C11. For every delivered message that decodes to an event: when the event has type
`user_created` and its `data` is an object whose `email` and `name` convert to strings
(as all strings do), the effects of the consumer callback are the received line, the
effects of one run of the welcome handler, and the acknowledgment; that run requests
`EmailLog.create` exactly once, for a record whose `to` is the event's `email`, whose
`userId` is the event's `userId` and whose `status` is `sent`. When the event has any
other type the callback does nothing at all or only logs the received line and
acknowledges: the handler is not run and no record is requested. -/
theorem welcome_handler_once_per_delivery (env : Env) (m : Message) (event : Json)
    (hparse : env.jsonParse m.content = .ok event) :
    (isUserCreated event = true →
      ∀ props emailText nameText, prop event "data" = some (.obj props) →
        toStr env (prop (.obj props) "email") = .ok emailText →
        toStr env (prop (.obj props) "name") = .ok nameText →
        (onMessage env (some m)).trace =
          received env "user_created" :: (sendWelcomeEmail env (prop event "data")).trace ++
            [.ack m] ∧
        (∃ outcome, (sendWelcomeEmail env (prop event "data")).trace =
            .log ("[" ++ env.now ++ "] 📧 EMAIL_SERVICE: Sending welcome email to " ++
              emailText) ::
            .create (welcomeFields nameText (.obj props)) :: outcome ∧
          outcome.any Effect.isCreate = false) ∧
        ((onMessage env (some m)).trace.filter Effect.isCreate).length = 1 ∧
        (welcomeFields nameText (.obj props)).to_ = lookupProp props "email" ∧
        (welcomeFields nameText (.obj props)).userId = lookupProp props "userId" ∧
        (welcomeFields nameText (.obj props)).status = "sent") ∧
    (isUserCreated event = false →
      ((onMessage env (some m)).trace = [] ∨
        ∃ typeText, (onMessage env (some m)).trace = [received env typeText, .ack m]) ∧
      (onMessage env (some m)).trace.any Effect.isCreate = false) := by
  constructor
  · intro htype props emailText nameText hdata hemail hname
    have hnull : event ≠ .null := by
      intro h
      rw [h, isUserCreated_null] at htype
      exact absurd htype (by simp)
    rw [onMessage_decoded env m event hparse hnull, toStr_type_of_user_created env event htype]
    simp only [processEvent, htype, if_true, hdata,
      sendWelcomeEmail_obj env props emailText hemail, hname]
    cases hcreate : env.create (welcomeFields nameText (.obj props)) with
    | ok id =>
      refine ⟨rfl, ⟨_, rfl, ?_⟩, ?_, rfl, rfl, rfl⟩
      · simp [Effect.isCreate]
      · simp [Effect.isCreate, received, List.filter]
    | error message =>
      refine ⟨rfl, ⟨_, rfl, ?_⟩, ?_, rfl, rfl, rfl⟩
      · simp [Effect.isCreate, failedToLog]
      · simp [Effect.isCreate, received, failedToLog, List.filter]
  · intro htype
    by_cases hnull : event = .null
    · subst hnull
      rw [onMessage_null env m hparse]
      exact ⟨Or.inl rfl, rfl⟩
    · rw [onMessage_decoded env m event hparse hnull]
      cases htext : toStr env (prop event "type") with
      | error err => exact ⟨Or.inl rfl, rfl⟩
      | ok typeText =>
        simp only [processEvent, htype, Bool.false_eq_true, if_false]
        exact ⟨Or.inr ⟨typeText, rfl⟩, by simp [Effect.isCreate, received]⟩

theorem welcome_handler_once_per_delivery_witness :
    (scenarioEnv (.ok 7)).jsonParse annMessage.content = .ok annEvent ∧
    isUserCreated annEvent = true ∧
    ((onMessage (scenarioEnv (.ok 7)) (some annMessage)).trace.filter Effect.isCreate).length = 1 ∧
    (welcomeFields "Ann"
      (.obj [("userId", .str "42"), ("name", .str "Ann"), ("email", .str "ann@x.com")])).to_ =
      some (.str "ann@x.com") :=
  have h := (welcome_handler_once_per_delivery (scenarioEnv (.ok 7)) annMessage annEvent rfl).1
    (by decide) [("userId", .str "42"), ("name", .str "Ann"), ("email", .str "ann@x.com")]
    "ann@x.com" "Ann" rfl rfl rfl
  ⟨rfl, by decide, h.2.2.1, h.2.2.2.1⟩

/-- The overall status of the health response, by the outcome of the database check and
of the registry check. -/
theorem getHealth_status (i : HealthInputs) :
    (getHealth i).status =
      if succeededCheck i.registryHealth then
        (if succeededCheck i.authenticate then "healthy" else "unhealthy")
      else "degraded" := by
  unfold getHealth succeededCheck
  cases i.authenticate <;> cases i.registryHealth <;> rfl

/-- The overall status is `healthy` exactly when the database check and the registry
check both succeed. -/
theorem getHealth_healthy_iff (i : HealthInputs) :
    (getHealth i).status = "healthy" ↔
      succeededCheck i.authenticate = true ∧ succeededCheck i.registryHealth = true := by
  rw [getHealth_status]
  cases succeededCheck i.authenticate <;> cases succeededCheck i.registryHealth <;> decide

/-- C14: the code lowers a failed database check to `degraded`. When
`sequelize.authenticate()` rejects and the registry's `/health` cannot be reached, the
handler first sets `status` to `unhealthy` and then overwrites it with `degraded`: the
response reports `database: disconnected` with overall status `degraded`. -/
theorem health_degraded_despite_database_failure (now memory uptime dbError registryError : String) :
    (getHealth ⟨now, memory, uptime, .error dbError, .error registryError⟩).status = "degraded" ∧
    (getHealth ⟨now, memory, uptime, .error dbError, .error registryError⟩).checks.database =
      "disconnected" ∧
    (getHealth ⟨now, memory, uptime, .error dbError, .ok ()⟩).status = "unhealthy" :=
  ⟨rfl, rfl, rfl⟩

theorem verifyToken_ok (jwtVerify : String → Except String Json) (token : String) (decoded : Json) :
    verifyToken jwtVerify token = .ok decoded ↔ jwtVerify token = .ok decoded := by
  unfold verifyToken
  cases jwtVerify token <;> simp

theorem authenticateService_invalid (now : String) (numTruthy : String → Bool)
    (jwtVerify : String → Except String Json) (token e : String) (hne : token ≠ "")
    (hv : jwtVerify token = .error e) :
    authenticateService now numTruthy jwtVerify (some token) =
      .respond 403 (authError "Invalid or expired service token" now) := by
  simp only [authenticateService, verifyToken, hne, if_false, hv]

theorem authenticateService_null (now : String) (numTruthy : String → Bool)
    (jwtVerify : String → Except String Json) (token : String) (hne : token ≠ "")
    (hv : jwtVerify token = .ok .null) :
    authenticateService now numTruthy jwtVerify (some token) =
      .respond 403 (authError "Invalid or expired service token" now) := by
  simp only [authenticateService, verifyToken, hne, if_false, hv]

/-- What `authenticateService` does with a token that verifies, by its claims. -/
theorem authenticateService_claims (now : String) (numTruthy : String → Bool)
    (jwtVerify : String → Except String Json) (token : String) (decoded : Json)
    (hne : token ≠ "") (hv : jwtVerify token = .ok decoded) (hnull : decoded ≠ .null) :
    authenticateService now numTruthy jwtVerify (some token) =
      match prop decoded "service" with
      | none => .respond 403 (authError "Invalid service token" now)
      | some service =>
        if service.truthy numTruthy then .next service
        else .respond 403 (authError "Invalid service token" now) := by
  cases decoded <;>
    first
    | exact absurd rfl hnull
    | simp only [authenticateService, verifyToken, hne, if_false, hv]

/-- A non-empty token is passed on with a given service identity exactly when it
verifies with that identity as a truthy `service` claim. -/
theorem authenticateService_next_iff (now : String) (numTruthy : String → Bool)
    (jwtVerify : String → Except String Json) (token : String) (hne : token ≠ "")
    (service : Json) :
    authenticateService now numTruthy jwtVerify (some token) = .next service ↔
      ∃ decoded, jwtVerify token = .ok decoded ∧ prop decoded "service" = some service ∧
        service.truthy numTruthy = true := by
  rcases hv : jwtVerify token with e | decoded
  · rw [authenticateService_invalid now numTruthy jwtVerify token e hne hv]
    simp
  · by_cases hnull : decoded = .null
    · subst hnull
      rw [authenticateService_null now numTruthy jwtVerify token hne hv]
      simp [prop]
    · rw [authenticateService_claims now numTruthy jwtVerify token decoded hne hv hnull]
      cases hs : prop decoded "service" with
      | none => simp [hs]
      | some found =>
        by_cases ht : found.truthy numTruthy = true
        · simp only [ht, if_true, AuthOutcome.next.injEq, Except.ok.injEq, exists_eq_left',
            hs, Option.some.injEq]
          constructor
          · intro h
            exact ⟨h, h ▸ ht⟩
          · intro h
            exact h.1
        · simp only [ht, if_false, reduceCtorEq, Except.ok.injEq, exists_eq_left', hs,
            Option.some.injEq, false_iff, not_and]
          intro h
          exact h ▸ ht

/-- A non-empty token that is not passed on is answered with 403. -/
theorem authenticateService_refused (now : String) (numTruthy : String → Bool)
    (jwtVerify : String → Except String Json) (token : String) (hne : token ≠ "")
    (hnot : ¬ ∃ decoded service, jwtVerify token = .ok decoded ∧
      prop decoded "service" = some service ∧ service.truthy numTruthy = true) :
    ∃ message, authenticateService now numTruthy jwtVerify (some token) =
      .respond 403 (authError message now) := by
  rcases hv : jwtVerify token with e | decoded
  · exact ⟨_, authenticateService_invalid now numTruthy jwtVerify token e hne hv⟩
  · by_cases hnull : decoded = .null
    · subst hnull
      exact ⟨_, authenticateService_null now numTruthy jwtVerify token hne hv⟩
    · rw [authenticateService_claims now numTruthy jwtVerify token decoded hne hv hnull]
      cases hs : prop decoded "service" with
      | none => exact ⟨_, rfl⟩
      | some found =>
        by_cases ht : found.truthy numTruthy = true
        · exact absurd ⟨decoded, found, hv, hs, ht⟩ hnot
        · simp only [ht, if_false]
          exact ⟨_, rfl⟩

/-- C12. With `jwt.verify` an opaque function that returns the claims or throws:
`authenticateService` calls `next`, with `req.service` set to the `service` claim, if
and only if the `x-service-token` header carries a (non-empty) token, the token verifies
and its claims hold a truthy `service` claim. An absent or empty token is answered with
401; a token that does not verify, or verifies without such a claim, is answered with
403; in both cases `next` is not called. -/
theorem service_token_gate (now : String) (numTruthy : String → Bool)
    (jwtVerify : String → Except String Json) (header : Option String) :
    (∀ service, authenticateService now numTruthy jwtVerify header = .next service ↔
      ∃ token decoded, header = some token ∧ token ≠ "" ∧ jwtVerify token = .ok decoded ∧
        prop decoded "service" = some service ∧ service.truthy numTruthy = true) ∧
    ((header = none ∨ header = some "") →
      authenticateService now numTruthy jwtVerify header =
        .respond 401 (authError "Service token required" now)) ∧
    (∀ token, header = some token → token ≠ "" →
      (¬ ∃ decoded service, jwtVerify token = .ok decoded ∧
        prop decoded "service" = some service ∧ service.truthy numTruthy = true) →
      ∃ message, authenticateService now numTruthy jwtVerify header =
        .respond 403 (authError message now)) := by
  refine ⟨?_, ?_, ?_⟩
  · intro service
    cases header with
    | none => simp [authenticateService]
    | some token =>
      by_cases hne : token = ""
      · subst hne
        simp [authenticateService]
      · rw [authenticateService_next_iff now numTruthy jwtVerify token hne service]
        constructor
        · rintro ⟨decoded, h⟩
          exact ⟨token, decoded, rfl, hne, h⟩
        · rintro ⟨token', decoded, htok, _, h⟩
          simp only [Option.some.injEq] at htok
          subst htok
          exact ⟨decoded, h⟩
  · rintro (h | h) <;> subst h <;> simp [authenticateService]
  · intro token htok hne hnot
    subst htok
    exact authenticateService_refused now numTruthy jwtVerify token hne hnot

theorem service_token_gate_witness :
    authenticateService "2024-01-01T00:00:00.000Z" (fun _ => true) scenarioVerify
        (some "service.jwt") = .next (.str "user-service") ∧
    ∃ message, authenticateService "2024-01-01T00:00:00.000Z" (fun _ => true) scenarioVerify
        (some "user.jwt") = .respond 403 (authError message "2024-01-01T00:00:00.000Z") :=
  ⟨((service_token_gate "2024-01-01T00:00:00.000Z" (fun _ => true) scenarioVerify
      (some "service.jwt")).1 (.str "user-service")).mpr
      ⟨"service.jwt", .obj [("service", .str "user-service"), ("type", .str "service")],
        rfl, by decide, rfl, rfl, rfl⟩,
   (service_token_gate "2024-01-01T00:00:00.000Z" (fun _ => true) scenarioVerify
      (some "user.jwt")).2.2 "user.jwt" rfl (by decide) (by
        rintro ⟨decoded, service, hv, hs, _⟩
        have hd : decoded = .obj [("userId", .str "42")] := by
          have h : scenarioVerify "user.jwt" = .ok (.obj [("userId", .str "42")]) := rfl
          rw [h] at hv
          exact (Except.ok.inj hv).symm
        subst hd
        simp [prop, lookupProp] at hs)⟩

end EmailService

/-! ## Bring-up retries -/

namespace UserService

theorem steps_cons_attempt (index : Nat) (trace : List Effect) :
    steps (.attempt index :: trace) = .attempt index :: steps trace := rfl

theorem steps_cons_log (line : String) (trace : List Effect) :
    steps (.log line :: trace) = steps trace := rfl

theorem steps_cons_wait (ms : Nat) (trace : List Effect) :
    steps (.wait ms :: trace) = .wait ms :: steps trace := rfl

theorem steps_nil : steps [] = [] := rfl

theorem schedule_succ_succ (start count : Nat) :
    schedule start (count + 2) =
      .attempt start :: .wait 5000 :: schedule (start + 1) (count + 1) := rfl

theorem schedule_one (start : Nat) : schedule start 1 = [.attempt start] := rfl

/-- A schedule of `count` attempts holds `count` attempts and `count - 1` waits, each of
5000 ms. -/
theorem schedule_counts (start count : Nat) :
    ((schedule start count).filter Effect.isAttempt).length = count ∧
    ((schedule start count).filter (Effect.isWait 5000)).length = count - 1 ∧
    ((schedule start count).filter fun e => !e.isAttempt && !e.isWait 5000) = [] := by
  induction count generalizing start with
  | zero => exact ⟨rfl, rfl, rfl⟩
  | succ n ih =>
    cases n with
    | zero => exact ⟨rfl, rfl, rfl⟩
    | succ c =>
      obtain ⟨h1, h2, h3⟩ := ih (start + 1)
      rw [schedule_succ_succ]
      refine ⟨?_, ?_, ?_⟩
      · simp [List.filter, Effect.isAttempt, h1]
      · simp [List.filter, Effect.isWait, h2]
      · rw [List.filter_cons_of_neg (by simp [Effect.isAttempt]),
          List.filter_cons_of_neg (by simp [Effect.isAttempt, Effect.isWait]), h3]

theorem steps_append (a b : List Effect) : steps (a ++ b) = steps a ++ steps b := by
  simp [steps]

/-- The waits the loops insert after a failed attempt, followed by the schedule of the
remaining attempts, continue the schedule by one attempt. -/
theorem schedule_step (start retries count : Nat) (hcount : count ≤ retries)
    (hpos : 0 < retries → 0 < count) :
    .attempt start :: ((if retries > 0 then [Effect.wait 5000] else []) ++
      schedule (start + 1) count) = schedule start (count + 1) := by
  cases count with
  | zero =>
    have hr : ¬ retries > 0 := fun h => absurd (hpos h) (by simp)
    simp [hr, schedule]
  | succ c =>
    have hr : retries > 0 := by omega
    simp [hr, schedule_succ_succ]

/-- The loop of `connectMongoDB` with `retries` left, when the first success from
attempt `start` on comes after `j` failures, or not within `retries` attempts. -/
theorem connectMongoDBLoop_steps (connect : Nat → Except String Unit) (retries start j : Nat)
    (hfail : ∀ i, i < j → succeeded (connect (start + i)) = false)
    (hj : succeeded (connect (start + j)) = true ∨ retries ≤ j) :
    steps (connectMongoDBLoop connect retries start).1 = schedule start (min (j + 1) retries) ∧
    (connectMongoDBLoop connect retries start).2 = decide (j < retries) := by
  induction retries generalizing start j with
  | zero => simp [connectMongoDBLoop, steps, schedule, Effect.isLog]
  | succ r ih =>
    cases hc : connect start with
    | ok u =>
      have hj0 : j = 0 := by
        by_contra hne
        have := hfail 0 (Nat.pos_of_ne_zero hne)
        simp [hc, succeeded] at this
      subst hj0
      simp [connectMongoDBLoop, hc, steps, Effect.isLog, schedule]
    | error message =>
      obtain ⟨j', rfl⟩ : ∃ j', j = j' + 1 := by
        cases j with
        | zero => simp [hc, succeeded] at hj
        | succ j' => exact ⟨j', rfl⟩
      have hfail' : ∀ i, i < j' → succeeded (connect (start + 1 + i)) = false := by
        intro i hi
        have := hfail (i + 1) (by omega)
        rwa [show start + (i + 1) = start + 1 + i by omega] at this
      have hj' : succeeded (connect (start + 1 + j')) = true ∨ r ≤ j' := by
        rcases hj with h | h
        · left
          rwa [show start + (j' + 1) = start + 1 + j' by omega] at h
        · right
          omega
      obtain ⟨ih1, ih2⟩ := ih (start + 1) j' hfail' hj'
      constructor
      · simp only [connectMongoDBLoop, hc, steps_cons_attempt, steps_cons_log, steps_append]
        have hw : steps (if r > 0 then [Effect.wait 5000] else []) =
            (if r > 0 then [Effect.wait 5000] else []) := by
          by_cases hr : r > 0 <;> simp [hr, steps, Effect.isLog]
        rw [hw, ih1, schedule_step start r _ (Nat.min_le_right _ _) (by omega)]
        congr 1
        omega
      · simp only [connectMongoDBLoop, hc, ih2]
        simp

/-- The loop of `registerWithRegistry`, as `connectMongoDBLoop_steps`. -/
theorem registerWithRegistryLoop_steps (post : Nat → Except String Unit) (retries start j : Nat)
    (hfail : ∀ i, i < j → succeeded (post (start + i)) = false)
    (hj : succeeded (post (start + j)) = true ∨ retries ≤ j) :
    steps (registerWithRegistryLoop post retries start) = schedule start (min (j + 1) retries) := by
  induction retries generalizing start j with
  | zero => simp [registerWithRegistryLoop, steps, schedule, Effect.isLog]
  | succ r ih =>
    cases hc : post start with
    | ok u =>
      have hj0 : j = 0 := by
        by_contra hne
        have := hfail 0 (Nat.pos_of_ne_zero hne)
        simp [hc, succeeded] at this
      subst hj0
      simp [registerWithRegistryLoop, hc, steps, Effect.isLog, schedule]
    | error message =>
      obtain ⟨j', rfl⟩ : ∃ j', j = j' + 1 := by
        cases j with
        | zero => simp [hc, succeeded] at hj
        | succ j' => exact ⟨j', rfl⟩
      have hfail' : ∀ i, i < j' → succeeded (post (start + 1 + i)) = false := by
        intro i hi
        have := hfail (i + 1) (by omega)
        rwa [show start + (i + 1) = start + 1 + i by omega] at this
      have hj' : succeeded (post (start + 1 + j')) = true ∨ r ≤ j' := by
        rcases hj with h | h
        · left
          rwa [show start + (j' + 1) = start + 1 + j' by omega] at h
        · right
          omega
      have ih1 := ih (start + 1) j' hfail' hj'
      simp only [registerWithRegistryLoop, hc, steps_cons_attempt, steps_cons_log, steps_append]
      have hw : steps (if r > 0 then [Effect.log "⏳ Retrying in 5 seconds...", Effect.wait 5000]
          else []) = (if r > 0 then [Effect.wait 5000] else []) := by
        by_cases hr : r > 0 <;> simp [hr, steps, Effect.isLog]
      rw [hw, ih1, schedule_step start r _ (Nat.min_le_right _ _) (by omega)]
      congr 1
      omega

theorem filter_isAttempt_steps (trace : List Effect) :
    (steps trace).filter Effect.isAttempt = trace.filter Effect.isAttempt := by
  unfold steps
  rw [List.filter_filter]
  congr 1
  funext e
  cases e <;> simp [Effect.isAttempt, Effect.isLog]

theorem filter_isWait_steps (ms : Nat) (trace : List Effect) :
    (steps trace).filter (Effect.isWait ms) = trace.filter (Effect.isWait ms) := by
  unfold steps
  rw [List.filter_filter]
  congr 1
  funext e
  cases e <;> simp [Effect.isWait, Effect.isLog]

/-- C13. Let the attempts be numbered from 0 and let `k` be the number of the first
successful one (so its position is `k + 1`), or any number from 5 on when none of the
first five succeeds. Then `connectMongoDB` and `registerWithRegistry`, which are total
and raise nothing, each make exactly `min (k + 1) 5` attempts, in order, with one wait
of 5000 ms between two consecutive attempts and no wait after the last: apart from log
lines their effects are exactly that schedule. `connectMongoDB` returns `true` when an
attempt succeeded and `false` after five failures. -/
theorem bring_up_retries_bounded (outcomes : Nat → Except String Unit) (k : Nat)
    (hfail : ∀ i, i < k → succeeded (outcomes i) = false)
    (hk : succeeded (outcomes k) = true ∨ 5 ≤ k) :
    steps (connectMongoDB outcomes).1 = schedule 0 (min (k + 1) 5) ∧
    steps (registerWithRegistry outcomes) = schedule 0 (min (k + 1) 5) ∧
    (connectMongoDB outcomes).2 = decide (k < 5) ∧
    ((connectMongoDB outcomes).1.filter Effect.isAttempt).length = min (k + 1) 5 ∧
    ((registerWithRegistry outcomes).filter Effect.isAttempt).length = min (k + 1) 5 ∧
    ((connectMongoDB outcomes).1.filter (Effect.isWait 5000)).length = min (k + 1) 5 - 1 ∧
    ((registerWithRegistry outcomes).filter (Effect.isWait 5000)).length = min (k + 1) 5 - 1 := by
  have hfail0 : ∀ i, i < k → succeeded (outcomes (0 + i)) = false := by
    intro i hi
    rw [Nat.zero_add]
    exact hfail i hi
  have hk0 : succeeded (outcomes (0 + k)) = true ∨ 5 ≤ k := by
    rw [Nat.zero_add]
    exact hk
  have hloop := connectMongoDBLoop_steps outcomes 5 0 k hfail0 hk0
  have hc : steps (connectMongoDB outcomes).1 = schedule 0 (min (k + 1) 5) := hloop.1
  have hr : (connectMongoDB outcomes).2 = decide (k < 5) := hloop.2
  have hp : steps (registerWithRegistry outcomes) = schedule 0 (min (k + 1) 5) :=
    registerWithRegistryLoop_steps outcomes 5 0 k hfail0 hk0
  obtain ⟨hn, hw, _⟩ := schedule_counts 0 (min (k + 1) 5)
  refine ⟨hc, hp, hr, ?_, ?_, ?_, ?_⟩
  · rw [← filter_isAttempt_steps, hc, hn]
  · rw [← filter_isAttempt_steps, hp, hn]
  · rw [← filter_isWait_steps, hc, hw]
  · rw [← filter_isWait_steps, hp, hw]

theorem bring_up_retries_bounded_witness :
    succeeded ((fun i => if i < 2 then .error "ECONNREFUSED" else .ok ()) 2) = true ∧
    steps (connectMongoDB fun i => if i < 2 then .error "ECONNREFUSED" else .ok ()).1 =
      [.attempt 0, .wait 5000, .attempt 1, .wait 5000, .attempt 2] ∧
    steps (registerWithRegistry fun _ => .error "ECONNREFUSED") =
      [.attempt 0, .wait 5000, .attempt 1, .wait 5000, .attempt 2, .wait 5000, .attempt 3,
       .wait 5000, .attempt 4] :=
  ⟨rfl,
   (bring_up_retries_bounded (fun i => if i < 2 then .error "ECONNREFUSED" else .ok ()) 2
     (by intro i hi; interval_cases i <;> rfl) (Or.inl rfl)).1,
   (bring_up_retries_bounded (fun _ => .error "ECONNREFUSED") 5
     (fun _ _ => rfl) (Or.inr (Nat.le_refl 5))).2.1⟩

end UserService
